import Mathlib

/-!
Verification of the command-definition and argument-resolution core of the
Namada/Anoma CLI (apps/src/lib/cli.rs).

The development shallowly embeds the command tree, the argument descriptors
and the dispatch entry points of cli.rs.  The command enumerations, their
parse functions, the argument-struct parse functions and the entry points
anoma_cli / anoma_client_cli are translated directly from cli.rs.  The
argument-descriptor machinery (the utils module), the Context type and the
domain value types (namada::types::*, cli/context.rs, config) are part of
the repository but not available here; they are modelled from the spec and
marked as such in their doc comments.

Conventions:
- Process exit on a failed argument parse is modelled by Except ParseErr.
- A clap ArgMatches value is modelled as the matched-argument tree: the
  present named values, the present flags and the selected subcommand.
- Process exit with usage (safe_exit(2)) is a dedicated result constructor.
-/

namespace NamadaCli

/-- A matched-argument tree, the result of clap matching: named argument
values that were supplied, flags that were present, and the selected
subcommand (clap selects at most one subcommand per level). -/
inductive ArgMatches : Type where
  | mk (vals : List (String × String)) (flags : List String)
      (sub : Option (String × ArgMatches))

/-- The raw text supplied for a named argument, if any. -/
def ArgMatches.valueOf : ArgMatches → String → Option String
  | .mk vals _ _, name => (vals.find? (fun p => p.1 == name)).map (·.2)

/-- Whether a boolean flag was supplied. -/
def ArgMatches.isPresent : ArgMatches → String → Bool
  | .mk _ flags _, name => flags.contains name

/-- The selected subcommand, with its own matched-argument tree. -/
def ArgMatches.subcommand : ArgMatches → Option (String × ArgMatches)
  | .mk _ _ sub => sub

/-- The matched-argument tree of the subcommand with the given token, when
that token is the selected subcommand (clap's subcommand_matches). -/
def ArgMatches.subcommandMatches (m : ArgMatches) (cmd : String) : Option ArgMatches :=
  match m.subcommand with
  | some (name, sub) => if name = cmd then some sub else none
  | none => none

/-- The raw token of the selected subcommand, if any. -/
def ArgMatches.subName (m : ArgMatches) : Option String :=
  m.subcommand.map (·.1)

/-- A typed argument parse failure: the offending key and, for a malformed
value, the raw text that failed.  In the program such a failure terminates
the process; here it is propagated as an error value. -/
inductive ParseErr : Type where
  | missing (key : String)
  | badValue (key : String) (raw : String)
deriving DecidableEq, Repr

instance {ε α : Type} [DecidableEq ε] [DecidableEq α] : DecidableEq (Except ε α) :=
  fun x y =>
    match x, y with
    | .ok a, .ok b =>
      if h : a = b then isTrue (by rw [h]) else
        isFalse (by intro hc; cases hc; exact h rfl)
    | .error a, .error b =>
      if h : a = b then isTrue (by rw [h]) else
        isFalse (by intro hc; cases hc; exact h rfl)
    | .ok _, .error _ => isFalse (by intro hc; cases hc)
    | .error _, .ok _ => isFalse (by intro hc; cases hc)

/-- The process environment, as a finite map from variable names to values. -/
abbrev Env := List (String × String)

/-- Environment-variable lookup (std::env::var, Ok/Err collapsed to Option). -/
def envVar (env : Env) (name : String) : Option String :=
  (env.find? (fun p => p.1 == name)).map (·.2)

/-! ## Argument descriptors

Modelled from the spec (the utils module is not part of the provided
source): a descriptor has a unique string key and a parse function; the
cardinality is Required, Optional or Flag, with an optional default
source.  A required argument that is absent is an error; an optional or
defaultable argument that is absent yields its default (None resp. the
default value); a present value that fails conversion is a typed parse
error naming the key and the raw text; a flag never fails (absence is
false). -/

/-- Modelled from the spec: a required argument descriptor (utils Arg).
Identity is the string key; conv converts raw text to the target type. -/
structure ArgSpec (α : Type) where
  name : String
  conv : String → Option α

/-- Modelled from the spec: an optional argument descriptor (utils ArgOpt). -/
structure ArgOptSpec (α : Type) where
  name : String
  conv : String → Option α

/-- Modelled from the spec: a defaultable argument descriptor with a fixed
default value (utils ArgDefault with a pure DefaultFn). -/
structure ArgDefaultSpec (α : Type) where
  name : String
  conv : String → Option α
  dflt : α

/-- Modelled from the spec: a defaultable argument descriptor whose
DefaultFn consults the process environment (utils ArgDefault with an
environment-reading DefaultFn, as used by BASE_DIR). -/
structure ArgDefaultEnvSpec (α : Type) where
  name : String
  conv : String → Option α
  dflt : Env → α

/-- Modelled from the spec: a boolean flag descriptor (utils ArgFlag). -/
structure ArgFlagSpec where
  name : String

/-- Modelled from the spec: a descriptor whose default is resolved from the
Context only after parsing (utils ArgDefaultFromCtx); phase 1 keeps the raw
alias-or-value text unresolved. -/
structure ArgDefaultFromCtxSpec where
  name : String
  dfltRaw : String

/-- Required argument: absent is an error naming the key; malformed present
text is an error naming the key and the text. -/
def ArgSpec.parse (a : ArgSpec α) (m : ArgMatches) : Except ParseErr α :=
  match m.valueOf a.name with
  | some s =>
    match a.conv s with
    | some v => .ok v
    | none => .error (.badValue a.name s)
  | none => .error (.missing a.name)

/-- Derive the optional descriptor with the same key (utils Arg::opt). -/
def ArgSpec.opt (a : ArgSpec α) : ArgOptSpec α := ⟨a.name, a.conv⟩

/-- Derive a defaultable descriptor with the same key (utils Arg::default). -/
def ArgSpec.default (a : ArgSpec α) (d : α) : ArgDefaultSpec α := ⟨a.name, a.conv, d⟩

/-- Optional argument: absence yields none; malformed present text is an
error, never a silent substitute. -/
def ArgOptSpec.parse (a : ArgOptSpec α) (m : ArgMatches) : Except ParseErr (Option α) :=
  match m.valueOf a.name with
  | some s =>
    match a.conv s with
    | some v => .ok (some v)
    | none => .error (.badValue a.name s)
  | none => .ok none

/-- Defaultable argument with pure default: an explicit value overrides the
default; absence resolves the default. -/
def ArgDefaultSpec.parse (a : ArgDefaultSpec α) (m : ArgMatches) : Except ParseErr α :=
  match m.valueOf a.name with
  | some s =>
    match a.conv s with
    | some v => .ok v
    | none => .error (.badValue a.name s)
  | none => .ok a.dflt

/-- Defaultable argument with environment-consulting default: an explicit
value overrides; absence runs the DefaultFn on the environment. -/
def ArgDefaultEnvSpec.parse (a : ArgDefaultEnvSpec α) (env : Env) (m : ArgMatches) :
    Except ParseErr α :=
  match m.valueOf a.name with
  | some s =>
    match a.conv s with
    | some v => .ok v
    | none => .error (.badValue a.name s)
  | none => .ok (a.dflt env)

/-- Flag: present is true, absent is false; never fails. -/
def ArgFlagSpec.parse (a : ArgFlagSpec) (m : ArgMatches) : Bool :=
  m.isPresent a.name


/-! ## Domain value types

The CLI converts raw text to typed domain values (namada::types::*,
tendermint types, cli/context.rs wallet aliases).  Those types are part of
the repository but outside the provided source; the spec treats them as
opaque values obtained by type-level parsing, so they are modelled as
wrappers around the raw text with a total conversion, except where the
source or the spec fixes a vocabulary (proposal votes, key schemes) or a
standard numeric grammar (u64 proposal ids). -/

/-- Path text (std::path::PathBuf; conversion from text is infallible). -/
abbrev PathBuf := String

/-- Total conversion for plain-text arguments. -/
def strConv (s : String) : Option String := some s

/-- Modelled from the spec: a chain identifier (namada::types::chain::ChainId);
opaque value of the chain-id text. -/
structure ChainId where
  raw : String
deriving DecidableEq, Repr

/-- Conversion used by the chain-id descriptors. -/
def ChainId.conv (s : String) : Option ChainId := some ⟨s⟩

/-- Modelled from the spec: a chain-id prefix (namada::types::chain::ChainIdPrefix). -/
structure ChainIdPrefix where
  raw : String
deriving DecidableEq, Repr

/-- Conversion used by the chain-prefix descriptor. -/
def ChainIdPrefix.conv (s : String) : Option ChainIdPrefix := some ⟨s⟩

/-- Modelled from the spec: an address-or-wallet-alias value, resolved
against the Context only after parsing (context::WalletAddress, a
FromContext value); phase 1 keeps the raw text. -/
structure WalletAddress where
  raw : String
deriving DecidableEq, Repr

/-- Conversion used by the wallet-address descriptors. -/
def WalletAddress.conv (s : String) : Option WalletAddress := some ⟨s⟩

/-- Context-defaulted argument: phase 1 keeps the raw supplied text, or the
raw default text when absent; resolution against the Context happens only
after Context construction (spec's two-phase FromContext resolution). -/
def ArgDefaultFromCtxSpec.parse (a : ArgDefaultFromCtxSpec) (m : ArgMatches) : WalletAddress :=
  match m.valueOf a.name with
  | some s => ⟨s⟩
  | none => ⟨a.dfltRaw⟩

/-- Modelled from the spec: a keypair-or-alias value resolved from the
wallet Context after parsing (context::WalletKeypair). -/
structure WalletKeypair where
  raw : String
deriving DecidableEq, Repr

/-- Conversion used by the signing-key descriptors. -/
def WalletKeypair.conv (s : String) : Option WalletKeypair := some ⟨s⟩

/-- Modelled from the spec: a public-key-or-alias value resolved from the
wallet Context after parsing (context::WalletPublicKey). -/
structure WalletPublicKey where
  raw : String
deriving DecidableEq, Repr

/-- Conversion used by the public-key descriptors. -/
def WalletPublicKey.conv (s : String) : Option WalletPublicKey := some ⟨s⟩

/-- Modelled from the spec: a raw bech32m address (namada::types::address::Address). -/
structure RawAddress where
  raw : String
deriving DecidableEq, Repr

/-- Conversion used by the raw-address descriptors. -/
def RawAddress.conv (s : String) : Option RawAddress := some ⟨s⟩

/-- Modelled from the spec: a raw public key (types::key::common::PublicKey). -/
structure RawPublicKey where
  raw : String
deriving DecidableEq, Repr

/-- Conversion used by the raw public-key descriptor. -/
def RawPublicKey.conv (s : String) : Option RawPublicKey := some ⟨s⟩

/-- Modelled from the spec: a token amount (namada::types::token::Amount). -/
structure Amount where
  raw : String
deriving DecidableEq, Repr

/-- Conversion used by the amount descriptors. -/
def Amount.conv (s : String) : Option Amount := some ⟨s⟩

/-- The zero amount, the static default of the fee and gas descriptors
(token::Amount::from(0)). -/
def Amount.zero : Amount := ⟨"0"⟩

/-- A transaction gas limit, converted from an Amount
(GasLimit::from, the .into() in args::Tx::parse). -/
structure GasLimit where
  amount : Amount
deriving DecidableEq, Repr

/-- The Amount-to-GasLimit conversion. -/
def GasLimit.ofAmount (a : Amount) : GasLimit := ⟨a⟩

/-- Modelled from the spec: an epoch number (namada::types::storage::Epoch). -/
structure Epoch where
  raw : String
deriving DecidableEq, Repr

/-- Conversion used by the epoch descriptor. -/
def Epoch.conv (s : String) : Option Epoch := some ⟨s⟩

/-- A governance proposal vote; the source help text fixes the vocabulary:
"The vote for the proposal. Either yay or nay.". -/
inductive ProposalVote : Type where
  | yay
  | nay
deriving DecidableEq, Repr

/-- Modelled from the spec: conversion of a vote value; text outside the
fixed vocabulary fails and never defaults. -/
def ProposalVote.conv : String → Option ProposalVote
  | "yay" => some .yay
  | "nay" => some .nay
  | _ => none

/-- Modelled from the spec: a decimal rate (rust_decimal::Decimal). -/
structure Decimal where
  raw : String
deriving DecidableEq, Repr

/-- Conversion used by the commission-rate descriptors. -/
def Decimal.conv (s : String) : Option Decimal := some ⟨s⟩

/-- Modelled from the spec: a socket address (std::net::SocketAddr). -/
structure SocketAddr where
  raw : String
deriving DecidableEq, Repr

/-- Conversion used by the net-address descriptor. -/
def SocketAddr.conv (s : String) : Option SocketAddr := some ⟨s⟩

/-- Modelled from the spec: a ledger node address
(tendermint_config::net::Address). -/
structure TendermintAddress where
  raw : String
deriving DecidableEq, Repr

/-- Conversion used by the ledger-address descriptors. -/
def TendermintAddress.conv (s : String) : Option TendermintAddress := some ⟨s⟩

/-- The static default ledger address, "127.0.0.1:26657" (the DefaultFn of
LEDGER_ADDRESS_DEFAULT). -/
def TendermintAddress.default : TendermintAddress := ⟨"127.0.0.1:26657"⟩

/-- Modelled from the spec: a consensus timeout (tendermint::Timeout). -/
structure Timeout where
  raw : String
deriving DecidableEq, Repr

/-- Conversion used by the consensus-timeout-commit descriptor. -/
def Timeout.conv (s : String) : Option Timeout := some ⟨s⟩

/-- The static default consensus timeout, Timeout::from_str("1s"). -/
def Timeout.oneSecond : Timeout := ⟨"1s"⟩

/-- Modelled from the spec: a storage key (namada::types::storage::Key). -/
structure StorageKey where
  raw : String
deriving DecidableEq, Repr

/-- Conversion used by the storage-key descriptor. -/
def StorageKey.conv (s : String) : Option StorageKey := some ⟨s⟩

/-- A signature scheme; the source help text fixes the vocabulary:
"Argument must be either ed25519 or secp256k1.". -/
inductive SchemeType : Type where
  | ed25519
  | secp256k1
deriving DecidableEq, Repr

/-- Modelled from the spec: conversion of a key-scheme value; text outside
the fixed vocabulary fails. -/
def SchemeType.conv : String → Option SchemeType
  | "ed25519" => some .ed25519
  | "secp256k1" => some .secp256k1
  | _ => none

/-- Modelled from the spec: the Tendermint run mode (config::TendermintMode),
a fixed enumeration; the mode argument's help text fixes the vocabulary:
"Options are Validator (default), Full, Seed". -/
inductive TendermintMode : Type where
  | Validator
  | Full
  | Seed
deriving DecidableEq, Repr

/-- Modelled from the spec: the From(String) conversion applied to the mode
value by args::Global::parse; per the spec an enumerated argument value
outside its fixed vocabulary always fails parsing ("unknown enum value"),
so text outside the vocabulary yields no mode.  Comparison is
case-insensitive (the help text capitalizes the options), lowering each
character of the raw text. -/
def TendermintMode.from (s : String) : Option TendermintMode :=
  match (⟨s.data.map Char.toLower⟩ : String) with
  | "validator" => some .Validator
  | "full" => some .Full
  | "seed" => some .Seed
  | _ => none

/-- Conversion of a u64 value (u64::from_str): decimal digits within the
unsigned 64-bit range. -/
def u64Conv (s : String) : Option Nat :=
  match s.toNat? with
  | some n => if n < 18446744073709551616 then some n else none
  | none => none

/-- Modelled from the spec: the static fallback base directory; the help
text of the base-dir argument documents it as ".anoma"
(config::DEFAULT_BASE_DIR). -/
def DEFAULT_BASE_DIR : PathBuf := ".anoma"

/-- The environment-then-static default strategy: the value of the
environment variable when set, the static fallback otherwise (the DefaultFn
of BASE_DIR in cli.rs). -/
def envThenStatic (varName : String) (static : PathBuf) : Env → PathBuf := fun env =>
  match envVar env varName with
  | some dir => dir
  | none => static

/-! ## The declarative command-line surface

The def() functions of cli.rs build a clap App: a command token, argument
declarations (with mutual-exclusion constraints), argument groups and
subcommands.  Help texts, display order and version strings only affect
help output and are elided here. -/

/-- A declared argument: its key and the keys it conflicts with. -/
structure ArgDef where
  name : String
  conflicts : List String
deriving DecidableEq, Repr

/-- Declare a conflict with another key (clap Arg::conflicts_with). -/
def ArgDef.conflicts_with (d : ArgDef) (other : String) : ArgDef :=
  { d with conflicts := d.conflicts ++ [other] }

/-- Declare conflicts with several keys (clap Arg::conflicts_with_all). -/
def ArgDef.conflicts_with_all (d : ArgDef) (others : List String) : ArgDef :=
  { d with conflicts := d.conflicts ++ others }

/-- The declaration of a required argument descriptor. -/
def ArgSpec.defn (a : ArgSpec α) : ArgDef := ⟨a.name, []⟩

/-- The declaration of an optional argument descriptor. -/
def ArgOptSpec.defn (a : ArgOptSpec α) : ArgDef := ⟨a.name, []⟩

/-- The declaration of a defaultable argument descriptor. -/
def ArgDefaultSpec.defn (a : ArgDefaultSpec α) : ArgDef := ⟨a.name, []⟩

/-- The declaration of an environment-defaulted argument descriptor. -/
def ArgDefaultEnvSpec.defn (a : ArgDefaultEnvSpec α) : ArgDef := ⟨a.name, []⟩

/-- The declaration of a flag descriptor. -/
def ArgFlagSpec.defn (a : ArgFlagSpec) : ArgDef := ⟨a.name, []⟩

/-- The declaration of a context-defaulted argument descriptor. -/
def ArgDefaultFromCtxSpec.defn (a : ArgDefaultFromCtxSpec) : ArgDef := ⟨a.name, []⟩

/-- A declared argument group (clap ArgGroup): a set of keys of which at
most one (or, when required, exactly one) may be supplied. -/
structure ArgGroupDef where
  name : String
  args : List String
  required : Bool
deriving DecidableEq, Repr

/-- A new argument group with the given name. -/
def ArgGroupDef.new (name : String) : ArgGroupDef := ⟨name, [], false⟩

/-- Set the group's member keys. -/
def ArgGroupDef.withArgs (g : ArgGroupDef) (as : List String) : ArgGroupDef :=
  { g with args := as }

/-- Mark the group as required (exactly one member must be supplied). -/
def ArgGroupDef.withRequired (g : ArgGroupDef) (r : Bool) : ArgGroupDef :=
  { g with required := r }

/-- The clap AppSettings used by cli.rs. -/
inductive AppSettings : Type where
  | SubcommandRequiredElseHelp
deriving DecidableEq, Repr

/-- A composed command definition: token, declared arguments, subcommand
definitions, argument groups, and whether a subcommand is required. -/
inductive App : Type where
  | mk (name : String) (argDefs : List ArgDef) (subs : List App)
      (groups : List ArgGroupDef) (subRequired : Bool)

/-- The command token of the definition. -/
def App.name : App → String
  | .mk n _ _ _ _ => n

/-- The declared arguments of the definition. -/
def App.argDefs : App → List ArgDef
  | .mk _ as _ _ _ => as

/-- The attached subcommand definitions. -/
def App.subs : App → List App
  | .mk _ _ ss _ _ => ss

/-- The declared argument groups. -/
def App.groups : App → List ArgGroupDef
  | .mk _ _ _ gs _ => gs

/-- Whether SubcommandRequiredElseHelp is set. -/
def App.subRequired : App → Bool
  | .mk _ _ _ _ r => r

/-- A fresh definition with the given token (clap App::new). -/
def App.new (name : String) : App := .mk name [] [] [] false

/-- Declare an argument (clap App::arg). -/
def App.arg : App → ArgDef → App
  | .mk n as ss gs r, d => .mk n (as ++ [d]) ss gs r

/-- Attach a subcommand definition (clap App::subcommand). -/
def App.subcommand : App → App → App
  | .mk n as ss gs r, s => .mk n as (ss ++ [s]) gs r

/-- Declare an argument group (clap App::group). -/
def App.group : App → ArgGroupDef → App
  | .mk n as ss gs r, g => .mk n as ss (gs ++ [g]) r

/-- Apply a setting (clap App::setting). -/
def App.setting : App → AppSettings → App
  | .mk n as ss gs _, .SubcommandRequiredElseHelp => .mk n as ss gs true

/-- Display order only affects help output; elided. -/
def App.display_order (a : App) (_ : Nat) : App := a

namespace args

/-! ### Argument descriptor constants (cli.rs, args module)

The module-level typed descriptor singletons, transcribed in the source's
order.  UNSAFE_DONT_ENCRYPT and UNSAFE_SHOW_SECRET are written
DONT_ENCRYPT and SHOW_SECRET here; their keys are unchanged. -/

def ADDRESS : ArgSpec WalletAddress := ⟨"address", WalletAddress.conv⟩
def ALIAS : ArgSpec String := ⟨"alias", strConv⟩
def ALIAS_OPT : ArgOptSpec String := ALIAS.opt
def ALLOW_DUPLICATE_IP : ArgFlagSpec := ⟨"allow-duplicate-ip"⟩
def AMOUNT : ArgSpec Amount := ⟨"amount", Amount.conv⟩
def ARCHIVE_DIR : ArgOptSpec PathBuf := ⟨"archive-dir", strConv⟩
def BASE_DIR : ArgDefaultEnvSpec PathBuf :=
  ⟨"base-dir", strConv, envThenStatic "ANOMA_BASE_DIR" DEFAULT_BASE_DIR⟩
def BROADCAST_ONLY : ArgFlagSpec := ⟨"broadcast-only"⟩
def CHAIN_ID : ArgSpec ChainId := ⟨"chain-id", ChainId.conv⟩
def CHAIN_ID_OPT : ArgOptSpec ChainId := CHAIN_ID.opt
def CHAIN_ID_PREFIX : ArgSpec ChainIdPrefix := ⟨"chain-prefix", ChainIdPrefix.conv⟩
def CODE_PATH : ArgSpec PathBuf := ⟨"code-path", strConv⟩
def CODE_PATH_OPT : ArgOptSpec PathBuf := CODE_PATH.opt
def COMMISSION_RATE : ArgSpec Decimal := ⟨"commission-rate", Decimal.conv⟩
def CONSENSUS_TIMEOUT_COMMIT : ArgDefaultSpec Timeout :=
  ⟨"consensus-timeout-commit", Timeout.conv, Timeout.oneSecond⟩
def DATA_PATH_OPT : ArgOptSpec PathBuf := ⟨"data-path", strConv⟩
def DATA_PATH : ArgSpec PathBuf := ⟨"data-path", strConv⟩
def DECRYPT : ArgFlagSpec := ⟨"decrypt"⟩
def DONT_ARCHIVE : ArgFlagSpec := ⟨"dont-archive"⟩
def DRY_RUN_TX : ArgFlagSpec := ⟨"dry-run"⟩
def EPOCH : ArgOptSpec Epoch := ⟨"epoch", Epoch.conv⟩
def FEE_AMOUNT : ArgDefaultSpec Amount := ⟨"fee-amount", Amount.conv, Amount.zero⟩
def FEE_TOKEN : ArgDefaultFromCtxSpec := ⟨"fee-token", "NAM"⟩
def FORCE : ArgFlagSpec := ⟨"force"⟩
def DONT_PREFETCH_WASM : ArgFlagSpec := ⟨"dont-prefetch-wasm"⟩
def GAS_LIMIT : ArgDefaultSpec Amount := ⟨"gas-limit", Amount.conv, Amount.zero⟩
def GENESIS_PATH : ArgSpec PathBuf := ⟨"genesis-path", strConv⟩
def GENESIS_VALIDATOR : ArgOptSpec String := (ArgSpec.mk "genesis-validator" strConv).opt
def LEDGER_ADDRESS : ArgSpec TendermintAddress := ⟨"ledger-address", TendermintAddress.conv⟩
def LEDGER_ADDRESS_DEFAULT : ArgDefaultSpec TendermintAddress :=
  LEDGER_ADDRESS.default TendermintAddress.default
def LOCALHOST : ArgFlagSpec := ⟨"localhost"⟩
def MAX_COMMISSION_RATE_CHANGE : ArgSpec Decimal :=
  ⟨"max-commission-rate-change", Decimal.conv⟩
def MODE : ArgOptSpec String := ⟨"mode", strConv⟩
def NET_ADDRESS : ArgSpec SocketAddr := ⟨"net-address", SocketAddr.conv⟩
def OWNER : ArgOptSpec WalletAddress := ⟨"owner", WalletAddress.conv⟩
def PROPOSAL_OFFLINE : ArgFlagSpec := ⟨"offline"⟩
def PROTOCOL_KEY : ArgOptSpec WalletPublicKey := ⟨"protocol-key", WalletPublicKey.conv⟩
def PRE_GENESIS_PATH : ArgOptSpec PathBuf := ⟨"pre-genesis-path", strConv⟩
def PUBLIC_KEY : ArgSpec WalletPublicKey := ⟨"public-key", WalletPublicKey.conv⟩
def PROPOSAL_ID : ArgSpec Nat := ⟨"proposal-id", u64Conv⟩
def PROPOSAL_ID_OPT : ArgOptSpec Nat := ⟨"proposal-id", u64Conv⟩
def PROPOSAL_VOTE : ArgSpec ProposalVote := ⟨"vote", ProposalVote.conv⟩
def RAW_ADDRESS : ArgSpec RawAddress := ⟨"address", RawAddress.conv⟩
def RAW_ADDRESS_OPT : ArgOptSpec RawAddress := RAW_ADDRESS.opt
def RAW_PUBLIC_KEY_OPT : ArgOptSpec RawPublicKey := ⟨"public-key", RawPublicKey.conv⟩
def SCHEME : ArgDefaultSpec SchemeType := ⟨"scheme", SchemeType.conv, SchemeType.ed25519⟩
def SIGNER : ArgOptSpec WalletAddress := ⟨"signer", WalletAddress.conv⟩
def SIGNING_KEY : ArgSpec WalletKeypair := ⟨"signing-key", WalletKeypair.conv⟩
def SIGNING_KEY_OPT : ArgOptSpec WalletKeypair := SIGNING_KEY.opt
def SOURCE : ArgSpec WalletAddress := ⟨"source", WalletAddress.conv⟩
def SOURCE_OPT : ArgOptSpec WalletAddress := SOURCE.opt
def STORAGE_KEY : ArgSpec StorageKey := ⟨"storage-key", StorageKey.conv⟩
def SUB_PREFIX : ArgOptSpec String := ⟨"sub-prefix", strConv⟩
def TARGET : ArgSpec WalletAddress := ⟨"target", WalletAddress.conv⟩
def TOKEN : ArgSpec WalletAddress := ⟨"token", WalletAddress.conv⟩
def TOKEN_OPT : ArgOptSpec WalletAddress := TOKEN.opt
def TX_HASH : ArgSpec String := ⟨"tx-hash", strConv⟩
def DONT_ENCRYPT : ArgFlagSpec := ⟨"unsafe-dont-encrypt"⟩
def SHOW_SECRET : ArgFlagSpec := ⟨"unsafe-show-secret"⟩
def VALIDATOR : ArgSpec WalletAddress := ⟨"validator", WalletAddress.conv⟩
def VALIDATOR_OPT : ArgOptSpec WalletAddress := VALIDATOR.opt
def VALIDATOR_ACCOUNT_KEY : ArgOptSpec WalletPublicKey :=
  ⟨"account-key", WalletPublicKey.conv⟩
def VALIDATOR_CONSENSUS_KEY : ArgOptSpec WalletKeypair :=
  ⟨"consensus-key", WalletKeypair.conv⟩
def VALIDATOR_CODE_PATH : ArgOptSpec PathBuf := ⟨"validator-code-path", strConv⟩
def VALUE : ArgOptSpec String := ⟨"value", strConv⟩
def WASM_CHECKSUMS_PATH : ArgSpec PathBuf := ⟨"wasm-checksums-path", strConv⟩
def WASM_DIR : ArgOptSpec PathBuf := ⟨"wasm-dir", strConv⟩

/-! ### Argument structures (cli.rs, args module) -/

/-- Global command arguments. -/
structure Global where
  chain_id : Option ChainId
  base_dir : PathBuf
  wasm_dir : Option PathBuf
  mode : Option TendermintMode
deriving DecidableEq, Repr

/-- The mode conversion of args::Global::parse lifted over the optional raw
value (the .map(TendermintMode::from) step): a present out-of-vocabulary
value is a terminating parse error naming the mode key, absence stays none. -/
def modeFromOpt : Option String → Except ParseErr (Option TendermintMode)
  | some s =>
    match TendermintMode.from s with
    | some md => .ok (some md)
    | none => .error (.badValue "mode" s)
  | none => .ok none

/-- Parse global arguments (args::Global::parse).  The environment is an
explicit parameter here because the base-dir DefaultFn reads it. -/
def Global.parse (env : Env) (m : ArgMatches) : Except ParseErr Global := do
  let chain_id ← CHAIN_ID_OPT.parse m
  let base_dir ← BASE_DIR.parse env m
  let wasm_dir ← WASM_DIR.parse m
  let mode ← modeFromOpt (← MODE.parse m)
  return { chain_id, base_dir, wasm_dir, mode }

/-- Global args definition, added to every top-level command (args::Global::def). -/
def Global.appDef (app : App) : App :=
  (((app.arg CHAIN_ID_OPT.defn).arg BASE_DIR.defn).arg WASM_DIR.defn).arg MODE.defn

/-- Common transaction arguments. -/
structure Tx where
  dry_run : Bool
  force : Bool
  broadcast_only : Bool
  ledger_address : TendermintAddress
  initialized_account_alias : Option String
  fee_amount : Amount
  fee_token : WalletAddress
  gas_limit : GasLimit
  signing_key : Option WalletKeypair
  signer : Option WalletAddress
deriving DecidableEq, Repr

/-- Parse the common transaction arguments (args::Tx::parse). -/
def Tx.parse (m : ArgMatches) : Except ParseErr Tx := do
  let dry_run := DRY_RUN_TX.parse m
  let force := FORCE.parse m
  let broadcast_only := BROADCAST_ONLY.parse m
  let ledger_address ← LEDGER_ADDRESS_DEFAULT.parse m
  let initialized_account_alias ← ALIAS_OPT.parse m
  let fee_amount ← FEE_AMOUNT.parse m
  let fee_token := FEE_TOKEN.parse m
  let gas_limit := GasLimit.ofAmount (← GAS_LIMIT.parse m)
  let signing_key ← SIGNING_KEY_OPT.parse m
  let signer ← SIGNER.parse m
  return { dry_run, force, broadcast_only, ledger_address, initialized_account_alias,
           fee_amount, fee_token, gas_limit, signing_key, signer }

/-- Declare the common transaction arguments; the signing-key and signer
keys are declared mutually exclusive (args::Tx::def). -/
def Tx.appDef (app : App) : App :=
  ((((((((((app.arg DRY_RUN_TX.defn).arg
    FORCE.defn).arg
    BROADCAST_ONLY.defn).arg
    LEDGER_ADDRESS_DEFAULT.defn).arg
    ALIAS_OPT.defn).arg
    FEE_AMOUNT.defn).arg
    FEE_TOKEN.defn).arg
    GAS_LIMIT.defn).arg
    (SIGNING_KEY_OPT.defn.conflicts_with SIGNER.name)).arg
    (SIGNER.defn.conflicts_with SIGNING_KEY_OPT.name))

/-- Common query arguments. -/
structure Query where
  ledger_address : TendermintAddress
deriving DecidableEq, Repr

/-- Parse the common query arguments (args::Query::parse). -/
def Query.parse (m : ArgMatches) : Except ParseErr Query := do
  let ledger_address ← LEDGER_ADDRESS_DEFAULT.parse m
  return { ledger_address }

/-- Declare the common query arguments (args::Query::def). -/
def Query.appDef (app : App) : App :=
  app.arg LEDGER_ADDRESS_DEFAULT.defn

/-- Transaction associated results arguments. -/
structure QueryResult where
  query : Query
  tx_hash : String
deriving DecidableEq, Repr

/-- Parse the tx-result arguments (args::QueryResult::parse). -/
def QueryResult.parse (m : ArgMatches) : Except ParseErr QueryResult := do
  let query ← Query.parse m
  let tx_hash ← TX_HASH.parse m
  return { query, tx_hash }

/-- Declare the tx-result arguments (args::QueryResult::def). -/
def QueryResult.appDef (app : App) : App :=
  (Query.appDef app).arg TX_HASH.defn

/-- Custom transaction arguments. -/
structure TxCustom where
  tx : Tx
  code_path : PathBuf
  data_path : Option PathBuf
deriving DecidableEq, Repr

/-- Parse the custom-transaction arguments (args::TxCustom::parse). -/
def TxCustom.parse (m : ArgMatches) : Except ParseErr TxCustom := do
  let tx ← Tx.parse m
  let code_path ← CODE_PATH.parse m
  let data_path ← DATA_PATH_OPT.parse m
  return { tx, code_path, data_path }

/-- Declare the custom-transaction arguments (args::TxCustom::def). -/
def TxCustom.appDef (app : App) : App :=
  ((Tx.appDef app).arg CODE_PATH.defn).arg DATA_PATH_OPT.defn

/-- Transfer transaction arguments. -/
structure TxTransfer where
  tx : Tx
  source : WalletAddress
  target : WalletAddress
  token : WalletAddress
  subPrefix : Option String
  amount : Amount
deriving DecidableEq, Repr

/-- Parse the transfer arguments (args::TxTransfer::parse). -/
def TxTransfer.parse (m : ArgMatches) : Except ParseErr TxTransfer := do
  let tx ← Tx.parse m
  let source ← SOURCE.parse m
  let target ← TARGET.parse m
  let token ← TOKEN.parse m
  let subPrefix ← SUB_PREFIX.parse m
  let amount ← AMOUNT.parse m
  return { tx, source, target, token, subPrefix, amount }

/-- Declare the transfer arguments (args::TxTransfer::def). -/
def TxTransfer.appDef (app : App) : App :=
  (((((Tx.appDef app).arg SOURCE.defn).arg TARGET.defn).arg TOKEN.defn).arg
    SUB_PREFIX.defn).arg AMOUNT.defn

/-- Transaction to initialize a new account. -/
structure TxInitAccount where
  tx : Tx
  source : WalletAddress
  vp_code_path : Option PathBuf
  public_key : WalletPublicKey
deriving DecidableEq, Repr

/-- Parse the init-account arguments (args::TxInitAccount::parse). -/
def TxInitAccount.parse (m : ArgMatches) : Except ParseErr TxInitAccount := do
  let tx ← Tx.parse m
  let source ← SOURCE.parse m
  let vp_code_path ← CODE_PATH_OPT.parse m
  let public_key ← PUBLIC_KEY.parse m
  return { tx, source, vp_code_path, public_key }

/-- Declare the init-account arguments (args::TxInitAccount::def). -/
def TxInitAccount.appDef (app : App) : App :=
  (((Tx.appDef app).arg SOURCE.defn).arg CODE_PATH_OPT.defn).arg PUBLIC_KEY.defn

/-- Transaction to initialize a new validator account. -/
structure TxInitValidator where
  tx : Tx
  source : WalletAddress
  scheme : SchemeType
  account_key : Option WalletPublicKey
  consensus_key : Option WalletKeypair
  protocol_key : Option WalletPublicKey
  commission_rate : Decimal
  max_commission_rate_change : Decimal
  validator_vp_code_path : Option PathBuf
  dontEncrypt : Bool
deriving DecidableEq, Repr

/-- Parse the init-validator arguments (args::TxInitValidator::parse). -/
def TxInitValidator.parse (m : ArgMatches) : Except ParseErr TxInitValidator := do
  let tx ← Tx.parse m
  let source ← SOURCE.parse m
  let scheme ← SCHEME.parse m
  let account_key ← VALIDATOR_ACCOUNT_KEY.parse m
  let consensus_key ← VALIDATOR_CONSENSUS_KEY.parse m
  let protocol_key ← PROTOCOL_KEY.parse m
  let commission_rate ← COMMISSION_RATE.parse m
  let max_commission_rate_change ← MAX_COMMISSION_RATE_CHANGE.parse m
  let validator_vp_code_path ← VALIDATOR_CODE_PATH.parse m
  let dontEncrypt := DONT_ENCRYPT.parse m
  return { tx, source, scheme, account_key, consensus_key, protocol_key,
           commission_rate, max_commission_rate_change, validator_vp_code_path,
           dontEncrypt }

/-- Declare the init-validator arguments (args::TxInitValidator::def). -/
def TxInitValidator.appDef (app : App) : App :=
  (((((((((Tx.appDef app).arg SOURCE.defn).arg SCHEME.defn).arg
    VALIDATOR_ACCOUNT_KEY.defn).arg
    VALIDATOR_CONSENSUS_KEY.defn).arg
    PROTOCOL_KEY.defn).arg
    COMMISSION_RATE.defn).arg
    MAX_COMMISSION_RATE_CHANGE.defn).arg
    VALIDATOR_CODE_PATH.defn).arg
    DONT_ENCRYPT.defn

/-- Transaction to update a validity predicate. -/
structure TxUpdateVp where
  tx : Tx
  vp_code_path : PathBuf
  addr : WalletAddress
deriving DecidableEq, Repr

/-- Parse the update-vp arguments (args::TxUpdateVp::parse). -/
def TxUpdateVp.parse (m : ArgMatches) : Except ParseErr TxUpdateVp := do
  let tx ← Tx.parse m
  let vp_code_path ← CODE_PATH.parse m
  let addr ← ADDRESS.parse m
  return { tx, vp_code_path, addr }

/-- Declare the update-vp arguments (args::TxUpdateVp::def). -/
def TxUpdateVp.appDef (app : App) : App :=
  ((Tx.appDef app).arg CODE_PATH.defn).arg ADDRESS.defn

/-- Bond arguments. -/
structure Bond where
  tx : Tx
  validator : WalletAddress
  amount : Amount
  source : Option WalletAddress
deriving DecidableEq, Repr

/-- Parse the bond arguments (args::Bond::parse). -/
def Bond.parse (m : ArgMatches) : Except ParseErr Bond := do
  let tx ← Tx.parse m
  let validator ← VALIDATOR.parse m
  let amount ← AMOUNT.parse m
  let source ← SOURCE_OPT.parse m
  return { tx, validator, amount, source }

/-- Declare the bond arguments (args::Bond::def). -/
def Bond.appDef (app : App) : App :=
  (((Tx.appDef app).arg VALIDATOR.defn).arg AMOUNT.defn).arg SOURCE_OPT.defn

/-- Unbond arguments. -/
structure Unbond where
  tx : Tx
  validator : WalletAddress
  amount : Amount
  source : Option WalletAddress
deriving DecidableEq, Repr

/-- Parse the unbond arguments (args::Unbond::parse). -/
def Unbond.parse (m : ArgMatches) : Except ParseErr Unbond := do
  let tx ← Tx.parse m
  let validator ← VALIDATOR.parse m
  let amount ← AMOUNT.parse m
  let source ← SOURCE_OPT.parse m
  return { tx, validator, amount, source }

/-- Declare the unbond arguments (args::Unbond::def). -/
def Unbond.appDef (app : App) : App :=
  (((Tx.appDef app).arg VALIDATOR.defn).arg AMOUNT.defn).arg SOURCE_OPT.defn

/-- Withdraw arguments. -/
structure Withdraw where
  tx : Tx
  validator : WalletAddress
  source : Option WalletAddress
deriving DecidableEq, Repr

/-- Parse the withdraw arguments (args::Withdraw::parse). -/
def Withdraw.parse (m : ArgMatches) : Except ParseErr Withdraw := do
  let tx ← Tx.parse m
  let validator ← VALIDATOR.parse m
  let source ← SOURCE_OPT.parse m
  return { tx, validator, source }

/-- Declare the withdraw arguments (args::Withdraw::def). -/
def Withdraw.appDef (app : App) : App :=
  ((Tx.appDef app).arg VALIDATOR.defn).arg SOURCE_OPT.defn

/-- Proposal creation arguments. -/
structure InitProposal where
  tx : Tx
  proposal_data : PathBuf
  offline : Bool
deriving DecidableEq, Repr

/-- Parse the init-proposal arguments (args::InitProposal::parse). -/
def InitProposal.parse (m : ArgMatches) : Except ParseErr InitProposal := do
  let tx ← Tx.parse m
  let proposal_data ← DATA_PATH.parse m
  let offline := PROPOSAL_OFFLINE.parse m
  return { tx, proposal_data, offline }

/-- Declare the init-proposal arguments (args::InitProposal::def). -/
def InitProposal.appDef (app : App) : App :=
  ((Tx.appDef app).arg DATA_PATH.defn).arg PROPOSAL_OFFLINE.defn

/-- Proposal vote arguments. -/
structure VoteProposal where
  tx : Tx
  proposal_id : Option Nat
  vote : ProposalVote
  offline : Bool
  proposal_data : Option PathBuf
deriving DecidableEq, Repr

/-- Parse the vote-proposal arguments (args::VoteProposal::parse). -/
def VoteProposal.parse (m : ArgMatches) : Except ParseErr VoteProposal := do
  let tx ← Tx.parse m
  let proposal_id ← PROPOSAL_ID_OPT.parse m
  let vote ← PROPOSAL_VOTE.parse m
  let offline := PROPOSAL_OFFLINE.parse m
  let proposal_data ← DATA_PATH_OPT.parse m
  return { tx, proposal_id, vote, offline, proposal_data }

/-- Declare the vote-proposal arguments; the proposal id conflicts with the
offline flag and the data path, and each of those conflicts with the
proposal id (args::VoteProposal::def). -/
def VoteProposal.appDef (app : App) : App :=
  ((((Tx.appDef app).arg
    (PROPOSAL_ID_OPT.defn.conflicts_with_all [PROPOSAL_OFFLINE.name, DATA_PATH_OPT.name])).arg
    PROPOSAL_VOTE.defn).arg
    (PROPOSAL_OFFLINE.defn.conflicts_with PROPOSAL_ID.name)).arg
    (DATA_PATH_OPT.defn.conflicts_with PROPOSAL_ID.name)

/-- Proposal query arguments. -/
structure QueryProposal where
  query : Query
  proposal_id : Option Nat
deriving DecidableEq, Repr

/-- Parse the query-proposal arguments (args::QueryProposal::parse). -/
def QueryProposal.parse (m : ArgMatches) : Except ParseErr QueryProposal := do
  let query ← Query.parse m
  let proposal_id ← PROPOSAL_ID_OPT.parse m
  return { query, proposal_id }

/-- Declare the query-proposal arguments (args::QueryProposal::def).  The
source really composes the Tx argument set here (add_args::<Tx>) even
though parse reads the Query set; transcribed as-is. -/
def QueryProposal.appDef (app : App) : App :=
  (Tx.appDef app).arg PROPOSAL_ID_OPT.defn

/-- Proposal result query arguments. -/
structure QueryProposalResult where
  query : Query
  proposal_id : Option Nat
  offline : Bool
  proposal_folder : Option PathBuf
deriving DecidableEq, Repr

/-- Parse the query-proposal-result arguments (args::QueryProposalResult::parse). -/
def QueryProposalResult.parse (m : ArgMatches) : Except ParseErr QueryProposalResult := do
  let query ← Query.parse m
  let proposal_id ← PROPOSAL_ID_OPT.parse m
  let offline := PROPOSAL_OFFLINE.parse m
  let proposal_folder ← DATA_PATH_OPT.parse m
  return { query, proposal_id, offline, proposal_folder }

/-- Declare the query-proposal-result arguments
(args::QueryProposalResult::def). -/
def QueryProposalResult.appDef (app : App) : App :=
  (((Query.appDef app).arg PROPOSAL_ID_OPT.defn).arg
    (PROPOSAL_OFFLINE.defn.conflicts_with PROPOSAL_ID.name)).arg
    (DATA_PATH_OPT.defn.conflicts_with PROPOSAL_ID.name)

/-- Protocol parameters query arguments. -/
structure QueryProtocolParameters where
  query : Query
deriving DecidableEq, Repr

/-- Parse the query-protocol-parameters arguments
(args::QueryProtocolParameters::parse). -/
def QueryProtocolParameters.parse (m : ArgMatches) :
    Except ParseErr QueryProtocolParameters := do
  let query ← Query.parse m
  return { query }

/-- Declare the query-protocol-parameters arguments
(args::QueryProtocolParameters::def). -/
def QueryProtocolParameters.appDef (app : App) : App :=
  Query.appDef app

/-- Token balance query arguments. -/
structure QueryBalance where
  query : Query
  owner : Option WalletAddress
  token : Option WalletAddress
  subPrefix : Option String
deriving DecidableEq, Repr

/-- Parse the balance query arguments (args::QueryBalance::parse). -/
def QueryBalance.parse (m : ArgMatches) : Except ParseErr QueryBalance := do
  let query ← Query.parse m
  let owner ← OWNER.parse m
  let token ← TOKEN_OPT.parse m
  let subPrefix ← SUB_PREFIX.parse m
  return { query, owner, token, subPrefix }

/-- Declare the balance query arguments (args::QueryBalance::def). -/
def QueryBalance.appDef (app : App) : App :=
  (((Query.appDef app).arg OWNER.defn).arg TOKEN_OPT.defn).arg SUB_PREFIX.defn

/-- PoS bonds query arguments. -/
structure QueryBonds where
  query : Query
  owner : Option WalletAddress
  validator : Option WalletAddress
deriving DecidableEq, Repr

/-- Parse the bonds query arguments (args::QueryBonds::parse). -/
def QueryBonds.parse (m : ArgMatches) : Except ParseErr QueryBonds := do
  let query ← Query.parse m
  let owner ← OWNER.parse m
  let validator ← VALIDATOR_OPT.parse m
  return { query, owner, validator }

/-- Declare the bonds query arguments (args::QueryBonds::def). -/
def QueryBonds.appDef (app : App) : App :=
  ((Query.appDef app).arg OWNER.defn).arg VALIDATOR_OPT.defn

/-- PoS voting power query arguments. -/
structure QueryVotingPower where
  query : Query
  validator : Option WalletAddress
  epoch : Option Epoch
deriving DecidableEq, Repr

/-- Parse the voting-power query arguments (args::QueryVotingPower::parse). -/
def QueryVotingPower.parse (m : ArgMatches) : Except ParseErr QueryVotingPower := do
  let query ← Query.parse m
  let validator ← VALIDATOR_OPT.parse m
  let epoch ← EPOCH.parse m
  return { query, validator, epoch }

/-- Declare the voting-power query arguments (args::QueryVotingPower::def). -/
def QueryVotingPower.appDef (app : App) : App :=
  ((Query.appDef app).arg VALIDATOR_OPT.defn).arg EPOCH.defn

/-- PoS commission rate query arguments. -/
structure QueryCommissionRate where
  query : Query
  validator : Option WalletAddress
  epoch : Option Epoch
deriving DecidableEq, Repr

/-- Parse the commission-rate query arguments (args::QueryCommissionRate::parse). -/
def QueryCommissionRate.parse (m : ArgMatches) : Except ParseErr QueryCommissionRate := do
  let query ← Query.parse m
  let validator ← VALIDATOR_OPT.parse m
  let epoch ← EPOCH.parse m
  return { query, validator, epoch }

/-- Declare the commission-rate query arguments (args::QueryCommissionRate::def). -/
def QueryCommissionRate.appDef (app : App) : App :=
  ((Query.appDef app).arg VALIDATOR_OPT.defn).arg EPOCH.defn

/-- PoS slashes query arguments. -/
structure QuerySlashes where
  query : Query
  validator : Option WalletAddress
deriving DecidableEq, Repr

/-- Parse the slashes query arguments (args::QuerySlashes::parse). -/
def QuerySlashes.parse (m : ArgMatches) : Except ParseErr QuerySlashes := do
  let query ← Query.parse m
  let validator ← VALIDATOR_OPT.parse m
  return { query, validator }

/-- Declare the slashes query arguments (args::QuerySlashes::def). -/
def QuerySlashes.appDef (app : App) : App :=
  (Query.appDef app).arg VALIDATOR_OPT.defn

/-- Raw storage bytes query arguments. -/
structure QueryRawBytes where
  storage_key : StorageKey
  query : Query
deriving DecidableEq, Repr

/-- Parse the query-bytes arguments; the storage key is read first
(args::QueryRawBytes::parse). -/
def QueryRawBytes.parse (m : ArgMatches) : Except ParseErr QueryRawBytes := do
  let storage_key ← STORAGE_KEY.parse m
  let query ← Query.parse m
  return { storage_key, query }

/-- Declare the query-bytes arguments (args::QueryRawBytes::def). -/
def QueryRawBytes.appDef (app : App) : App :=
  (Query.appDef app).arg STORAGE_KEY.defn

/-- Wallet key-and-address generation arguments (the unsafe_dont_encrypt
field is written dontEncrypt here). -/
structure KeyAndAddressGen where
  scheme : SchemeType
  aliasArg : Option String
  dontEncrypt : Bool
deriving DecidableEq, Repr

/-- Parse the key/address generation arguments (args::KeyAndAddressGen::parse). -/
def KeyAndAddressGen.parse (m : ArgMatches) : Except ParseErr KeyAndAddressGen := do
  let scheme ← SCHEME.parse m
  let aliasArg ← ALIAS_OPT.parse m
  let dontEncrypt := DONT_ENCRYPT.parse m
  return { scheme, aliasArg, dontEncrypt }

/-- Wallet key lookup arguments (unsafe_show_secret written showSecret). -/
structure KeyFind where
  public_key : Option RawPublicKey
  aliasArg : Option String
  value : Option String
  showSecret : Bool
deriving DecidableEq, Repr

/-- Parse the key lookup arguments (args::KeyFind::parse). -/
def KeyFind.parse (m : ArgMatches) : Except ParseErr KeyFind := do
  let public_key ← RAW_PUBLIC_KEY_OPT.parse m
  let aliasArg ← ALIAS_OPT.parse m
  let value ← VALUE.parse m
  let showSecret := SHOW_SECRET.parse m
  return { public_key, aliasArg, value, showSecret }

/-- Wallet key listing arguments. -/
structure KeyList where
  decrypt : Bool
  showSecret : Bool
deriving DecidableEq, Repr

/-- Parse the key listing arguments (args::KeyList::parse). -/
def KeyList.parse (m : ArgMatches) : Except ParseErr KeyList := do
  let decrypt := DECRYPT.parse m
  let showSecret := SHOW_SECRET.parse m
  return { decrypt, showSecret }

/-- Wallet key export arguments. -/
structure KeyExport where
  aliasArg : String
deriving DecidableEq, Repr

/-- Parse the key export arguments (args::KeyExport::parse). -/
def KeyExport.parse (m : ArgMatches) : Except ParseErr KeyExport := do
  let aliasArg ← ALIAS.parse m
  return { aliasArg }

/-- Wallet address lookup arguments. -/
structure AddressOrAliasFind where
  aliasArg : Option String
  address : Option RawAddress
deriving DecidableEq, Repr

/-- Parse the address lookup arguments (args::AddressOrAliasFind::parse). -/
def AddressOrAliasFind.parse (m : ArgMatches) : Except ParseErr AddressOrAliasFind := do
  let aliasArg ← ALIAS_OPT.parse m
  let address ← RAW_ADDRESS_OPT.parse m
  return { aliasArg, address }

/-- Wallet address add arguments. -/
structure AddressAdd where
  aliasArg : String
  address : RawAddress
deriving DecidableEq, Repr

/-- Parse the address add arguments (args::AddressAdd::parse). -/
def AddressAdd.parse (m : ArgMatches) : Except ParseErr AddressAdd := do
  let aliasArg ← ALIAS.parse m
  let address ← RAW_ADDRESS.parse m
  return { aliasArg, address }

/-- Network-join arguments. -/
structure JoinNetwork where
  chain_id : ChainId
  genesis_validator : Option String
  pre_genesis_path : Option PathBuf
  dont_prefetch_wasm : Bool
deriving DecidableEq, Repr

/-- Parse the join-network arguments (args::JoinNetwork::parse). -/
def JoinNetwork.parse (m : ArgMatches) : Except ParseErr JoinNetwork := do
  let chain_id ← CHAIN_ID.parse m
  let genesis_validator ← GENESIS_VALIDATOR.parse m
  let pre_genesis_path ← PRE_GENESIS_PATH.parse m
  let dont_prefetch_wasm := DONT_PREFETCH_WASM.parse m
  return { chain_id, genesis_validator, pre_genesis_path, dont_prefetch_wasm }

/-- Declare the join-network arguments (args::JoinNetwork::def). -/
def JoinNetwork.appDef (app : App) : App :=
  (((app.arg CHAIN_ID.defn).arg GENESIS_VALIDATOR.defn).arg
    PRE_GENESIS_PATH.defn).arg DONT_PREFETCH_WASM.defn

/-- Wasm-prefetch arguments. -/
structure FetchWasms where
  chain_id : ChainId
deriving DecidableEq, Repr

/-- Parse the fetch-wasms arguments (args::FetchWasms::parse). -/
def FetchWasms.parse (m : ArgMatches) : Except ParseErr FetchWasms := do
  let chain_id ← CHAIN_ID.parse m
  return { chain_id }

/-- Declare the fetch-wasms arguments (args::FetchWasms::def). -/
def FetchWasms.appDef (app : App) : App :=
  app.arg CHAIN_ID.defn

/-- Test-network initialization arguments (unsafe_dont_encrypt written
dontEncrypt, chain_id_prefix written chainIdPrefix). -/
structure InitNetwork where
  genesis_path : PathBuf
  wasm_checksums_path : PathBuf
  chainIdPrefix : ChainIdPrefix
  dontEncrypt : Bool
  consensus_timeout_commit : Timeout
  localhost : Bool
  allow_duplicate_ip : Bool
  dont_archive : Bool
  archive_dir : Option PathBuf
deriving DecidableEq, Repr

/-- Parse the init-network arguments (args::InitNetwork::parse). -/
def InitNetwork.parse (m : ArgMatches) : Except ParseErr InitNetwork := do
  let genesis_path ← GENESIS_PATH.parse m
  let wasm_checksums_path ← WASM_CHECKSUMS_PATH.parse m
  let chainIdPrefix ← CHAIN_ID_PREFIX.parse m
  let dontEncrypt := DONT_ENCRYPT.parse m
  let consensus_timeout_commit ← CONSENSUS_TIMEOUT_COMMIT.parse m
  let localhost := LOCALHOST.parse m
  let allow_duplicate_ip := ALLOW_DUPLICATE_IP.parse m
  let dont_archive := DONT_ARCHIVE.parse m
  let archive_dir ← ARCHIVE_DIR.parse m
  return { genesis_path, wasm_checksums_path, chainIdPrefix, dontEncrypt,
           consensus_timeout_commit, localhost, allow_duplicate_ip,
           dont_archive, archive_dir }

/-- Declare the init-network arguments (args::InitNetwork::def). -/
def InitNetwork.appDef (app : App) : App :=
  ((((((((app.arg GENESIS_PATH.defn).arg
    WASM_CHECKSUMS_PATH.defn).arg
    CHAIN_ID_PREFIX.defn).arg
    DONT_ENCRYPT.defn).arg
    CONSENSUS_TIMEOUT_COMMIT.defn).arg
    LOCALHOST.defn).arg
    ALLOW_DUPLICATE_IP.defn).arg
    DONT_ARCHIVE.defn).arg
    ARCHIVE_DIR.defn

/-- Genesis validator initialization arguments (unsafe_dont_encrypt written
dontEncrypt). -/
structure InitGenesisValidator where
  aliasArg : String
  commission_rate : Decimal
  max_commission_rate_change : Decimal
  net_address : SocketAddr
  dontEncrypt : Bool
  key_scheme : SchemeType
deriving DecidableEq, Repr

/-- Parse the init-genesis-validator arguments
(args::InitGenesisValidator::parse). -/
def InitGenesisValidator.parse (m : ArgMatches) : Except ParseErr InitGenesisValidator := do
  let aliasArg ← ALIAS.parse m
  let commission_rate ← COMMISSION_RATE.parse m
  let max_commission_rate_change ← MAX_COMMISSION_RATE_CHANGE.parse m
  let net_address ← NET_ADDRESS.parse m
  let dontEncrypt := DONT_ENCRYPT.parse m
  let key_scheme ← SCHEME.parse m
  return { aliasArg, net_address, dontEncrypt, key_scheme, commission_rate,
           max_commission_rate_change }

/-- Declare the init-genesis-validator arguments
(args::InitGenesisValidator::def). -/
def InitGenesisValidator.appDef (app : App) : App :=
  (((((app.arg ALIAS.defn).arg
    NET_ADDRESS.defn).arg
    COMMISSION_RATE.defn).arg
    MAX_COMMISSION_RATE_CHANGE.defn).arg
    DONT_ENCRYPT.defn).arg
    SCHEME.defn

end args

/-- The application name of every composed binary. -/
def APP_NAME : String := "Namada"

/-- The token of the node sub-binary command. -/
def NODE_CMD : String := "node"

/-- The token of the client sub-binary command. -/
def CLIENT_CMD : String := "client"

/-- The token of the wallet sub-binary command. -/
def WALLET_CMD : String := "wallet"

namespace cmds

/-! ### Command nodes (cli.rs, cmds module)

Every command node carries its parsed argument structure.  A node's parse
yields none when its token was not the selected subcommand; a some(error)
value records that the token matched but an argument parse failed, which in
the program exits the process during the node's parse. -/

/-- Run the ledger node (leaf, no arguments). -/
inductive LedgerRun : Type where
  | mk
deriving DecidableEq, Repr

/-- The ledger run token. -/
def LedgerRun.CMD : String := "run"

/-- Parse the run leaf (cmds::LedgerRun::parse). -/
def LedgerRun.parse (m : ArgMatches) : Option (Except ParseErr LedgerRun) :=
  (m.subcommandMatches CMD).map (fun _m => .ok .mk)

/-- Reset the ledger storage (leaf, no arguments). -/
inductive LedgerReset : Type where
  | mk
deriving DecidableEq, Repr

/-- The ledger reset token. -/
def LedgerReset.CMD : String := "reset"

/-- Parse the reset leaf (cmds::LedgerReset::parse). -/
def LedgerReset.parse (m : ArgMatches) : Option (Except ParseErr LedgerReset) :=
  (m.subcommandMatches CMD).map (fun _m => .ok .mk)

/-- Ledger node sub-commands. -/
inductive Ledger : Type where
  | Run (v : LedgerRun)
  | Reset (v : LedgerReset)
deriving DecidableEq, Repr

/-- The ledger token. -/
def Ledger.CMD : String := "ledger"

/-- Parse the ledger command; the run sub-command is the default when no
sub-command is given (cmds::Ledger::parse). -/
def Ledger.parse (m : ArgMatches) : Option (Except ParseErr Ledger) :=
  (m.subcommandMatches CMD).bind (fun ms =>
    let run := (LedgerRun.parse ms).map (fun r => r.map Ledger.Run)
    let reset := (LedgerReset.parse ms).map (fun r => r.map Ledger.Reset)
    (run.or reset).or (some (.ok (.Run .mk))))

/-- Generate the default configuration file (leaf, no arguments). -/
inductive ConfigGen : Type where
  | mk
deriving DecidableEq, Repr

/-- The config gen token. -/
def ConfigGen.CMD : String := "gen"

/-- Parse the config gen leaf (cmds::ConfigGen::parse). -/
def ConfigGen.parse (m : ArgMatches) : Option (Except ParseErr ConfigGen) :=
  (m.subcommandMatches CMD).map (fun _m => .ok .mk)

/-- Configuration sub-commands. -/
inductive Config : Type where
  | Gen (v : ConfigGen)
deriving DecidableEq, Repr

/-- The config token. -/
def Config.CMD : String := "config"

/-- Parse the config command (cmds::Config::parse). -/
def Config.parse (m : ArgMatches) : Option (Except ParseErr Config) :=
  (m.subcommandMatches CMD).bind (fun ms =>
    (ConfigGen.parse ms).map (fun r => r.map Config.Gen))

/-- Node-binary commands (cmds::AnomaNode). -/
inductive AnomaNode : Type where
  | Ledger (v : Ledger)
  | Config (v : Config)
deriving DecidableEq, Repr

/-- Parse the node commands at the current level (Cmd::parse for AnomaNode). -/
def AnomaNode.parse (m : ArgMatches) : Option (Except ParseErr AnomaNode) :=
  let ledger := (Ledger.parse m).map (fun r => r.map AnomaNode.Ledger)
  let config := (Config.parse m).map (fun r => r.map AnomaNode.Config)
  ledger.or config

/-- The node sub-binary token. -/
def AnomaNode.CMD : String := NODE_CMD

/-- Parse the node commands under the node token (SubCmd::parse for AnomaNode). -/
def AnomaNode.subParse (m : ArgMatches) : Option (Except ParseErr AnomaNode) :=
  (m.subcommandMatches CMD).bind AnomaNode.parse

/-- Generate a keypair and derived address (wallet key gen leaf). -/
structure KeyGen where
  v : args.KeyAndAddressGen
deriving DecidableEq, Repr

/-- The key gen token. -/
def KeyGen.CMD : String := "gen"

/-- Parse the key gen leaf (cmds::KeyGen::parse). -/
def KeyGen.parse (m : ArgMatches) : Option (Except ParseErr KeyGen) :=
  (m.subcommandMatches CMD).map
    (fun ms => (args.KeyAndAddressGen.parse ms).map KeyGen.mk)

/-- Search for a keypair (wallet key find leaf). -/
structure KeyFind where
  v : args.KeyFind
deriving DecidableEq, Repr

/-- The key find token. -/
def KeyFind.CMD : String := "find"

/-- Parse the key find leaf (cmds::KeyFind::parse). -/
def KeyFind.parse (m : ArgMatches) : Option (Except ParseErr KeyFind) :=
  (m.subcommandMatches CMD).map
    (fun ms => (args.KeyFind.parse ms).map KeyFind.mk)

/-- List all known keys (wallet key list leaf). -/
structure KeyList where
  v : args.KeyList
deriving DecidableEq, Repr

/-- The key list token. -/
def KeyList.CMD : String := "list"

/-- Parse the key list leaf (cmds::KeyList::parse). -/
def KeyList.parse (m : ArgMatches) : Option (Except ParseErr KeyList) :=
  (m.subcommandMatches CMD).map
    (fun ms => (args.KeyList.parse ms).map KeyList.mk)

/-- Export a keypair (wallet key export leaf). -/
structure Export where
  v : args.KeyExport
deriving DecidableEq, Repr

/-- The key export token. -/
def Export.CMD : String := "export"

/-- Parse the key export leaf (cmds::Export::parse). -/
def Export.parse (m : ArgMatches) : Option (Except ParseErr Export) :=
  (m.subcommandMatches CMD).map
    (fun ms => (args.KeyExport.parse ms).map Export.mk)

/-- Wallet key management sub-commands. -/
inductive WalletKey : Type where
  | Gen (v : KeyGen)
  | Find (v : KeyFind)
  | List (v : KeyList)
  | Export (v : Export)
deriving DecidableEq, Repr

/-- The wallet key token. -/
def WalletKey.CMD : String := "key"

/-- Parse the wallet key commands (cmds::WalletKey::parse). -/
def WalletKey.parse (m : ArgMatches) : Option (Except ParseErr WalletKey) :=
  (m.subcommandMatches CMD).bind (fun ms =>
    let generate := (KeyGen.parse ms).map (fun r => r.map WalletKey.Gen)
    let lookup := (KeyFind.parse ms).map (fun r => r.map WalletKey.Find)
    let list := (KeyList.parse ms).map (fun r => r.map WalletKey.List)
    let exp := (Export.parse ms).map (fun r => r.map WalletKey.Export)
    ((generate.or lookup).or list).or exp)

/-- Generate a keypair and derived address (wallet address gen leaf). -/
structure AddressGen where
  v : args.KeyAndAddressGen
deriving DecidableEq, Repr

/-- The address gen token. -/
def AddressGen.CMD : String := "gen"

/-- Parse the address gen leaf (cmds::AddressGen::parse). -/
def AddressGen.parse (m : ArgMatches) : Option (Except ParseErr AddressGen) :=
  (m.subcommandMatches CMD).map
    (fun ms => (args.KeyAndAddressGen.parse ms).map AddressGen.mk)

/-- Find an address or an alias (wallet address find leaf). -/
structure AddressOrAliasFind where
  v : args.AddressOrAliasFind
deriving DecidableEq, Repr

/-- The address find token. -/
def AddressOrAliasFind.CMD : String := "find"

/-- Parse the address find leaf (cmds::AddressOrAliasFind::parse). -/
def AddressOrAliasFind.parse (m : ArgMatches) : Option (Except ParseErr AddressOrAliasFind) :=
  (m.subcommandMatches CMD).map
    (fun ms => (args.AddressOrAliasFind.parse ms).map AddressOrAliasFind.mk)

/-- List known addresses (wallet address list leaf, no arguments). -/
inductive AddressList : Type where
  | mk
deriving DecidableEq, Repr

/-- The address list token. -/
def AddressList.CMD : String := "list"

/-- Parse the address list leaf (cmds::AddressList::parse). -/
def AddressList.parse (m : ArgMatches) : Option (Except ParseErr AddressList) :=
  (m.subcommandMatches CMD).map (fun _m => .ok .mk)

/-- Store an alias for an address (wallet address add leaf). -/
structure AddressAdd where
  v : args.AddressAdd
deriving DecidableEq, Repr

/-- The address add token. -/
def AddressAdd.CMD : String := "add"

/-- Parse the address add leaf (cmds::AddressAdd::parse). -/
def AddressAdd.parse (m : ArgMatches) : Option (Except ParseErr AddressAdd) :=
  (m.subcommandMatches CMD).map
    (fun ms => (args.AddressAdd.parse ms).map AddressAdd.mk)

/-- Wallet address management sub-commands (cmds::WalletAddress). -/
inductive WalletAddress : Type where
  | Gen (v : AddressGen)
  | Find (v : AddressOrAliasFind)
  | List (v : AddressList)
  | Add (v : AddressAdd)
deriving DecidableEq, Repr

/-- The wallet address token. -/
def WalletAddress.CMD : String := "address"

/-- Parse the wallet address commands (cmds::WalletAddress::parse). -/
def WalletAddress.parse (m : ArgMatches) : Option (Except ParseErr WalletAddress) :=
  (m.subcommandMatches CMD).bind (fun ms =>
    let gen := (AddressGen.parse ms).map (fun r => r.map WalletAddress.Gen)
    let find := (AddressOrAliasFind.parse ms).map (fun r => r.map WalletAddress.Find)
    let list := (AddressList.parse ms).map (fun r => r.map WalletAddress.List)
    let add := (AddressAdd.parse ms).map (fun r => r.map WalletAddress.Add)
    ((gen.or find).or list).or add)

/-- Wallet-binary commands (cmds::AnomaWallet). -/
inductive AnomaWallet : Type where
  | Key (v : WalletKey)
  | Address (v : WalletAddress)
deriving DecidableEq, Repr

/-- Parse the wallet commands at the current level (Cmd::parse for AnomaWallet). -/
def AnomaWallet.parse (m : ArgMatches) : Option (Except ParseErr AnomaWallet) :=
  let key := (WalletKey.parse m).map (fun r => r.map AnomaWallet.Key)
  let address := (WalletAddress.parse m).map (fun r => r.map AnomaWallet.Address)
  key.or address

/-- The wallet sub-binary token. -/
def AnomaWallet.CMD : String := WALLET_CMD

/-- Parse the wallet commands under the wallet token (SubCmd::parse). -/
def AnomaWallet.subParse (m : ArgMatches) : Option (Except ParseErr AnomaWallet) :=
  (m.subcommandMatches CMD).bind AnomaWallet.parse

/-- Send a custom-WASM transaction (leaf). -/
structure TxCustom where
  v : args.TxCustom
deriving DecidableEq, Repr

/-- The custom transaction token. -/
def TxCustom.CMD : String := "tx"

/-- Parse the custom transaction leaf (cmds::TxCustom::parse). -/
def TxCustom.parse (m : ArgMatches) : Option (Except ParseErr TxCustom) :=
  (m.subcommandMatches CMD).map
    (fun ms => (args.TxCustom.parse ms).map TxCustom.mk)

/-- Send a transfer transaction (leaf). -/
structure TxTransfer where
  v : args.TxTransfer
deriving DecidableEq, Repr

/-- The transfer token. -/
def TxTransfer.CMD : String := "transfer"

/-- Parse the transfer leaf (cmds::TxTransfer::parse). -/
def TxTransfer.parse (m : ArgMatches) : Option (Except ParseErr TxTransfer) :=
  (m.subcommandMatches CMD).map
    (fun ms => (args.TxTransfer.parse ms).map TxTransfer.mk)

/-- Send a validity-predicate update transaction (leaf). -/
structure TxUpdateVp where
  v : args.TxUpdateVp
deriving DecidableEq, Repr

/-- The update token. -/
def TxUpdateVp.CMD : String := "update"

/-- Parse the update leaf (cmds::TxUpdateVp::parse). -/
def TxUpdateVp.parse (m : ArgMatches) : Option (Except ParseErr TxUpdateVp) :=
  (m.subcommandMatches CMD).map
    (fun ms => (args.TxUpdateVp.parse ms).map TxUpdateVp.mk)

/-- Send an init-account transaction (leaf). -/
structure TxInitAccount where
  v : args.TxInitAccount
deriving DecidableEq, Repr

/-- The init-account token. -/
def TxInitAccount.CMD : String := "init-account"

/-- Parse the init-account leaf (cmds::TxInitAccount::parse). -/
def TxInitAccount.parse (m : ArgMatches) : Option (Except ParseErr TxInitAccount) :=
  (m.subcommandMatches CMD).map
    (fun ms => (args.TxInitAccount.parse ms).map TxInitAccount.mk)

/-- Send an init-validator transaction (leaf). -/
structure TxInitValidator where
  v : args.TxInitValidator
deriving DecidableEq, Repr

/-- The init-validator token. -/
def TxInitValidator.CMD : String := "init-validator"

/-- Parse the init-validator leaf (cmds::TxInitValidator::parse). -/
def TxInitValidator.parse (m : ArgMatches) : Option (Except ParseErr TxInitValidator) :=
  (m.subcommandMatches CMD).map
    (fun ms => (args.TxInitValidator.parse ms).map TxInitValidator.mk)

/-- Create a new proposal (leaf). -/
structure TxInitProposal where
  v : args.InitProposal
deriving DecidableEq, Repr

/-- The init-proposal token. -/
def TxInitProposal.CMD : String := "init-proposal"

/-- Parse the init-proposal leaf (cmds::TxInitProposal::parse). -/
def TxInitProposal.parse (m : ArgMatches) : Option (Except ParseErr TxInitProposal) :=
  (m.subcommandMatches CMD).map
    (fun ms => (args.InitProposal.parse ms).map TxInitProposal.mk)

/-- Vote on a proposal (leaf). -/
structure TxVoteProposal where
  v : args.VoteProposal
deriving DecidableEq, Repr

/-- The vote-proposal token. -/
def TxVoteProposal.CMD : String := "vote-proposal"

/-- Parse the vote-proposal leaf (cmds::TxVoteProposal::parse). -/
def TxVoteProposal.parse (m : ArgMatches) : Option (Except ParseErr TxVoteProposal) :=
  (m.subcommandMatches CMD).map
    (fun ms => (args.VoteProposal.parse ms).map TxVoteProposal.mk)

/-- Bond tokens (leaf). -/
structure Bond where
  v : args.Bond
deriving DecidableEq, Repr

/-- The bond token. -/
def Bond.CMD : String := "bond"

/-- Parse the bond leaf (cmds::Bond::parse). -/
def Bond.parse (m : ArgMatches) : Option (Except ParseErr Bond) :=
  (m.subcommandMatches CMD).map
    (fun ms => (args.Bond.parse ms).map Bond.mk)

/-- Unbond tokens (leaf). -/
structure Unbond where
  v : args.Unbond
deriving DecidableEq, Repr

/-- The unbond token. -/
def Unbond.CMD : String := "unbond"

/-- Parse the unbond leaf (cmds::Unbond::parse). -/
def Unbond.parse (m : ArgMatches) : Option (Except ParseErr Unbond) :=
  (m.subcommandMatches CMD).map
    (fun ms => (args.Unbond.parse ms).map Unbond.mk)

/-- Withdraw unbonded tokens (leaf). -/
structure Withdraw where
  v : args.Withdraw
deriving DecidableEq, Repr

/-- The withdraw token. -/
def Withdraw.CMD : String := "withdraw"

/-- Parse the withdraw leaf (cmds::Withdraw::parse). -/
def Withdraw.parse (m : ArgMatches) : Option (Except ParseErr Withdraw) :=
  (m.subcommandMatches CMD).map
    (fun ms => (args.Withdraw.parse ms).map Withdraw.mk)

/-- Query the current epoch (leaf). -/
structure QueryEpoch where
  v : args.Query
deriving DecidableEq, Repr

/-- The epoch query token. -/
def QueryEpoch.CMD : String := "epoch"

/-- Parse the epoch query leaf (cmds::QueryEpoch::parse). -/
def QueryEpoch.parse (m : ArgMatches) : Option (Except ParseErr QueryEpoch) :=
  (m.subcommandMatches CMD).map
    (fun ms => (args.Query.parse ms).map QueryEpoch.mk)

/-- Query the last committed block (leaf). -/
structure QueryBlock where
  v : args.Query
deriving DecidableEq, Repr

/-- The block query token. -/
def QueryBlock.CMD : String := "block"

/-- Parse the block query leaf (cmds::QueryBlock::parse). -/
def QueryBlock.parse (m : ArgMatches) : Option (Except ParseErr QueryBlock) :=
  (m.subcommandMatches CMD).map
    (fun ms => (args.Query.parse ms).map QueryBlock.mk)

/-- Query token balances (leaf). -/
structure QueryBalance where
  v : args.QueryBalance
deriving DecidableEq, Repr

/-- The balance query token. -/
def QueryBalance.CMD : String := "balance"

/-- Parse the balance query leaf (cmds::QueryBalance::parse). -/
def QueryBalance.parse (m : ArgMatches) : Option (Except ParseErr QueryBalance) :=
  (m.subcommandMatches CMD).map
    (fun ms => (args.QueryBalance.parse ms).map QueryBalance.mk)

/-- Query PoS bonds (leaf). -/
structure QueryBonds where
  v : args.QueryBonds
deriving DecidableEq, Repr

/-- The bonds query token. -/
def QueryBonds.CMD : String := "bonds"

/-- Parse the bonds query leaf (cmds::QueryBonds::parse). -/
def QueryBonds.parse (m : ArgMatches) : Option (Except ParseErr QueryBonds) :=
  (m.subcommandMatches CMD).map
    (fun ms => (args.QueryBonds.parse ms).map QueryBonds.mk)

/-- Query PoS voting power (leaf). -/
structure QueryVotingPower where
  v : args.QueryVotingPower
deriving DecidableEq, Repr

/-- The voting-power query token. -/
def QueryVotingPower.CMD : String := "voting-power"

/-- Parse the voting-power query leaf (cmds::QueryVotingPower::parse). -/
def QueryVotingPower.parse (m : ArgMatches) : Option (Except ParseErr QueryVotingPower) :=
  (m.subcommandMatches CMD).map
    (fun ms => (args.QueryVotingPower.parse ms).map QueryVotingPower.mk)

/-- Query a validator's commission rate (leaf; declared but not reachable
from the client surface). -/
structure QueryCommissionRate where
  v : args.QueryCommissionRate
deriving DecidableEq, Repr

/-- The commission-rate query token. -/
def QueryCommissionRate.CMD : String := "commission-rate"

/-- Parse the commission-rate query leaf (cmds::QueryCommissionRate::parse). -/
def QueryCommissionRate.parse (m : ArgMatches) :
    Option (Except ParseErr QueryCommissionRate) :=
  (m.subcommandMatches CMD).map
    (fun ms => (args.QueryCommissionRate.parse ms).map QueryCommissionRate.mk)

/-- Query PoS slashes (leaf). -/
structure QuerySlashes where
  v : args.QuerySlashes
deriving DecidableEq, Repr

/-- The slashes query token. -/
def QuerySlashes.CMD : String := "slashes"

/-- Parse the slashes query leaf (cmds::QuerySlashes::parse). -/
def QuerySlashes.parse (m : ArgMatches) : Option (Except ParseErr QuerySlashes) :=
  (m.subcommandMatches CMD).map
    (fun ms => (args.QuerySlashes.parse ms).map QuerySlashes.mk)

/-- Query a transaction result (leaf). -/
structure QueryResult where
  v : args.QueryResult
deriving DecidableEq, Repr

/-- The tx-result query token. -/
def QueryResult.CMD : String := "tx-result"

/-- Parse the tx-result query leaf (cmds::QueryResult::parse). -/
def QueryResult.parse (m : ArgMatches) : Option (Except ParseErr QueryResult) :=
  (m.subcommandMatches CMD).map
    (fun ms => (args.QueryResult.parse ms).map QueryResult.mk)

/-- Query raw storage bytes (leaf). -/
structure QueryRawBytes where
  v : args.QueryRawBytes
deriving DecidableEq, Repr

/-- The query-bytes token. -/
def QueryRawBytes.CMD : String := "query-bytes"

/-- Parse the query-bytes leaf (cmds::QueryRawBytes::parse). -/
def QueryRawBytes.parse (m : ArgMatches) : Option (Except ParseErr QueryRawBytes) :=
  (m.subcommandMatches CMD).map
    (fun ms => (args.QueryRawBytes.parse ms).map QueryRawBytes.mk)

/-- Query proposals (leaf). -/
structure QueryProposal where
  v : args.QueryProposal
deriving DecidableEq, Repr

/-- The query-proposal token. -/
def QueryProposal.CMD : String := "query-proposal"

/-- Parse the query-proposal leaf (cmds::QueryProposal::parse). -/
def QueryProposal.parse (m : ArgMatches) : Option (Except ParseErr QueryProposal) :=
  (m.subcommandMatches CMD).map
    (fun ms => (args.QueryProposal.parse ms).map QueryProposal.mk)

/-- Query a proposal result (leaf). -/
structure QueryProposalResult where
  v : args.QueryProposalResult
deriving DecidableEq, Repr

/-- The query-proposal-result token. -/
def QueryProposalResult.CMD : String := "query-proposal-result"

/-- Parse the query-proposal-result leaf (cmds::QueryProposalResult::parse). -/
def QueryProposalResult.parse (m : ArgMatches) :
    Option (Except ParseErr QueryProposalResult) :=
  (m.subcommandMatches CMD).map
    (fun ms => (args.QueryProposalResult.parse ms).map QueryProposalResult.mk)

/-- Query protocol parameters (leaf). -/
structure QueryProtocolParameters where
  v : args.QueryProtocolParameters
deriving DecidableEq, Repr

/-- The query-protocol-parameters token. -/
def QueryProtocolParameters.CMD : String := "query-protocol-parameters"

/-- Parse the query-protocol-parameters leaf
(cmds::QueryProtocolParameters::parse). -/
def QueryProtocolParameters.parse (m : ArgMatches) :
    Option (Except ParseErr QueryProtocolParameters) :=
  (m.subcommandMatches CMD).map
    (fun ms => (args.QueryProtocolParameters.parse ms).map QueryProtocolParameters.mk)

/-- Configure to join an existing network (utils leaf). -/
structure JoinNetwork where
  v : args.JoinNetwork
deriving DecidableEq, Repr

/-- The join-network token. -/
def JoinNetwork.CMD : String := "join-network"

/-- Parse the join-network leaf (cmds::JoinNetwork::parse). -/
def JoinNetwork.parse (m : ArgMatches) : Option (Except ParseErr JoinNetwork) :=
  (m.subcommandMatches CMD).map
    (fun ms => (args.JoinNetwork.parse ms).map JoinNetwork.mk)

/-- Fetch pre-built wasms (utils leaf). -/
structure FetchWasms where
  v : args.FetchWasms
deriving DecidableEq, Repr

/-- The fetch-wasms token. -/
def FetchWasms.CMD : String := "fetch-wasms"

/-- Parse the fetch-wasms leaf (cmds::FetchWasms::parse). -/
def FetchWasms.parse (m : ArgMatches) : Option (Except ParseErr FetchWasms) :=
  (m.subcommandMatches CMD).map
    (fun ms => (args.FetchWasms.parse ms).map FetchWasms.mk)

/-- Initialize a new test network (utils leaf). -/
structure InitNetwork where
  v : args.InitNetwork
deriving DecidableEq, Repr

/-- The init-network token. -/
def InitNetwork.CMD : String := "init-network"

/-- Parse the init-network leaf (cmds::InitNetwork::parse). -/
def InitNetwork.parse (m : ArgMatches) : Option (Except ParseErr InitNetwork) :=
  (m.subcommandMatches CMD).map
    (fun ms => (args.InitNetwork.parse ms).map InitNetwork.mk)

/-- Initialize a genesis validator (utils leaf). -/
structure InitGenesisValidator where
  v : args.InitGenesisValidator
deriving DecidableEq, Repr

/-- The init-genesis-validator token. -/
def InitGenesisValidator.CMD : String := "init-genesis-validator"

/-- Parse the init-genesis-validator leaf (cmds::InitGenesisValidator::parse). -/
def InitGenesisValidator.parse (m : ArgMatches) :
    Option (Except ParseErr InitGenesisValidator) :=
  (m.subcommandMatches CMD).map
    (fun ms => (args.InitGenesisValidator.parse ms).map InitGenesisValidator.mk)

/-- Utility commands, dispatched without a Context (cmds::Utils). -/
inductive Utils : Type where
  | JoinNetwork (v : JoinNetwork)
  | FetchWasms (v : FetchWasms)
  | InitNetwork (v : InitNetwork)
  | InitGenesisValidator (v : InitGenesisValidator)
deriving DecidableEq, Repr

/-- The utils token. -/
def Utils.CMD : String := "utils"

/-- Parse the utils commands (cmds::Utils::parse). -/
def Utils.parse (m : ArgMatches) : Option (Except ParseErr Utils) :=
  (m.subcommandMatches CMD).bind (fun ms =>
    let join_network := (JoinNetwork.parse ms).map (fun r => r.map Utils.JoinNetwork)
    let fetch_wasms := (FetchWasms.parse ms).map (fun r => r.map Utils.FetchWasms)
    let init_network := (InitNetwork.parse ms).map (fun r => r.map Utils.InitNetwork)
    let init_genesis :=
      (InitGenesisValidator.parse ms).map (fun r => r.map Utils.InitGenesisValidator)
    ((join_network.or fetch_wasms).or init_network).or init_genesis)

/-- The context-dependent client commands (cmds::AnomaClientWithContext). -/
inductive AnomaClientWithContext : Type where
  | TxCustom (v : TxCustom)
  | TxTransfer (v : TxTransfer)
  | QueryResult (v : QueryResult)
  | TxUpdateVp (v : TxUpdateVp)
  | TxInitAccount (v : TxInitAccount)
  | TxInitValidator (v : TxInitValidator)
  | TxInitProposal (v : TxInitProposal)
  | TxVoteProposal (v : TxVoteProposal)
  | Bond (v : Bond)
  | Unbond (v : Unbond)
  | Withdraw (v : Withdraw)
  | QueryEpoch (v : QueryEpoch)
  | QueryBlock (v : QueryBlock)
  | QueryBalance (v : QueryBalance)
  | QueryBonds (v : QueryBonds)
  | QueryVotingPower (v : QueryVotingPower)
  | QueryCommissionRate (v : QueryCommissionRate)
  | QuerySlashes (v : QuerySlashes)
  | QueryRawBytes (v : QueryRawBytes)
  | QueryProposal (v : QueryProposal)
  | QueryProposalResult (v : QueryProposalResult)
  | QueryProtocolParameters (v : QueryProtocolParameters)
deriving DecidableEq, Repr

/-- Client-binary commands: context-dependent commands and utils
(cmds::AnomaClient). -/
inductive AnomaClient : Type where
  | WithContext (v : AnomaClientWithContext)
  | WithoutContext (v : Utils)
deriving DecidableEq, Repr

/-- Wrap a context-dependent sub-command parse result
(cmds::AnomaClient::parse_with_ctx). -/
def AnomaClient.parseWithCtx (sub : Option (Except ParseErr α))
    (sub_to_self : α → AnomaClientWithContext) : Option (Except ParseErr AnomaClient) :=
  sub.map (fun r => r.map (fun s => AnomaClient.WithContext (sub_to_self s)))

/-- Parse the client commands at the current level (Cmd::parse for
AnomaClient), in the source's attempt order. -/
def AnomaClient.parse (m : ArgMatches) : Option (Except ParseErr AnomaClient) :=
  let tx_custom := parseWithCtx (TxCustom.parse m) AnomaClientWithContext.TxCustom
  let tx_transfer := parseWithCtx (TxTransfer.parse m) AnomaClientWithContext.TxTransfer
  let tx_update_vp := parseWithCtx (TxUpdateVp.parse m) AnomaClientWithContext.TxUpdateVp
  let tx_init_account :=
    parseWithCtx (TxInitAccount.parse m) AnomaClientWithContext.TxInitAccount
  let tx_init_validator :=
    parseWithCtx (TxInitValidator.parse m) AnomaClientWithContext.TxInitValidator
  let tx_init_proposal :=
    parseWithCtx (TxInitProposal.parse m) AnomaClientWithContext.TxInitProposal
  let tx_vote_proposal :=
    parseWithCtx (TxVoteProposal.parse m) AnomaClientWithContext.TxVoteProposal
  let bond := parseWithCtx (Bond.parse m) AnomaClientWithContext.Bond
  let unbond := parseWithCtx (Unbond.parse m) AnomaClientWithContext.Unbond
  let withdraw := parseWithCtx (Withdraw.parse m) AnomaClientWithContext.Withdraw
  let query_epoch := parseWithCtx (QueryEpoch.parse m) AnomaClientWithContext.QueryEpoch
  let query_block := parseWithCtx (QueryBlock.parse m) AnomaClientWithContext.QueryBlock
  let query_balance :=
    parseWithCtx (QueryBalance.parse m) AnomaClientWithContext.QueryBalance
  let query_bonds := parseWithCtx (QueryBonds.parse m) AnomaClientWithContext.QueryBonds
  let query_voting_power :=
    parseWithCtx (QueryVotingPower.parse m) AnomaClientWithContext.QueryVotingPower
  let query_slashes :=
    parseWithCtx (QuerySlashes.parse m) AnomaClientWithContext.QuerySlashes
  let query_result :=
    parseWithCtx (QueryResult.parse m) AnomaClientWithContext.QueryResult
  let query_raw_bytes :=
    parseWithCtx (QueryRawBytes.parse m) AnomaClientWithContext.QueryRawBytes
  let query_proposal :=
    parseWithCtx (QueryProposal.parse m) AnomaClientWithContext.QueryProposal
  let query_proposal_result :=
    parseWithCtx (QueryProposalResult.parse m) AnomaClientWithContext.QueryProposalResult
  let query_protocol_parameters :=
    parseWithCtx (QueryProtocolParameters.parse m)
      AnomaClientWithContext.QueryProtocolParameters
  let utils := (Utils.parse m).map (fun r => r.map AnomaClient.WithoutContext)
  ((((((((((((((((((((tx_custom.or
    tx_transfer).or
    tx_update_vp).or
    tx_init_account).or
    tx_init_validator).or
    tx_init_proposal).or
    tx_vote_proposal).or
    bond).or
    unbond).or
    withdraw).or
    query_epoch).or
    query_block).or
    query_balance).or
    query_bonds).or
    query_voting_power).or
    query_slashes).or
    query_result).or
    query_raw_bytes).or
    query_proposal).or
    query_proposal_result).or
    query_protocol_parameters).or
    utils

/-- The client sub-binary token. -/
def AnomaClient.CMD : String := CLIENT_CMD

/-- Parse the client commands under the client token (SubCmd::parse for
AnomaClient). -/
def AnomaClient.subParse (m : ArgMatches) : Option (Except ParseErr AnomaClient) :=
  (m.subcommandMatches CMD).bind AnomaClient.parse

/-- Combined-binary commands (cmds::Anoma): the sub-binary commands and the
commands inlined from the node and the client. -/
inductive Anoma : Type where
  | Node (v : AnomaNode)
  | Client (v : AnomaClient)
  | Wallet (v : AnomaWallet)
  | Ledger (v : Ledger)
  | TxCustom (v : TxCustom)
  | TxTransfer (v : TxTransfer)
  | TxUpdateVp (v : TxUpdateVp)
  | TxInitProposal (v : TxInitProposal)
  | TxVoteProposal (v : TxVoteProposal)
deriving DecidableEq, Repr

/-- Parse the combined-binary commands, in the source's attempt order
(cmds::Anoma::parse). -/
def Anoma.parse (m : ArgMatches) : Option (Except ParseErr Anoma) :=
  let node := (AnomaNode.subParse m).map (fun r => r.map Anoma.Node)
  let client := (AnomaClient.subParse m).map (fun r => r.map Anoma.Client)
  let wallet := (AnomaWallet.subParse m).map (fun r => r.map Anoma.Wallet)
  let ledger := (Ledger.parse m).map (fun r => r.map Anoma.Ledger)
  let tx_custom := (TxCustom.parse m).map (fun r => r.map Anoma.TxCustom)
  let tx_transfer := (TxTransfer.parse m).map (fun r => r.map Anoma.TxTransfer)
  let tx_update_vp := (TxUpdateVp.parse m).map (fun r => r.map Anoma.TxUpdateVp)
  let tx_init_proposal :=
    (TxInitProposal.parse m).map (fun r => r.map Anoma.TxInitProposal)
  let tx_vote_proposal :=
    (TxVoteProposal.parse m).map (fun r => r.map Anoma.TxVoteProposal)
  (((((((node.or
    client).or
    wallet).or
    ledger).or
    tx_custom).or
    tx_transfer).or
    tx_update_vp).or
    tx_init_proposal).or
    tx_vote_proposal

/-! ### Client-tree command definitions (the def() functions used by the
client surface; help texts elided). -/

/-- Definition of the custom transaction command (cmds::TxCustom::def). -/
def TxCustom.appDef : App := args.TxCustom.appDef (App.new CMD)

/-- Definition of the transfer command (cmds::TxTransfer::def). -/
def TxTransfer.appDef : App := args.TxTransfer.appDef (App.new CMD)

/-- Definition of the update command (cmds::TxUpdateVp::def). -/
def TxUpdateVp.appDef : App := args.TxUpdateVp.appDef (App.new CMD)

/-- Definition of the init-account command (cmds::TxInitAccount::def). -/
def TxInitAccount.appDef : App := args.TxInitAccount.appDef (App.new CMD)

/-- Definition of the init-validator command (cmds::TxInitValidator::def). -/
def TxInitValidator.appDef : App := args.TxInitValidator.appDef (App.new CMD)

/-- Definition of the init-proposal command (cmds::TxInitProposal::def). -/
def TxInitProposal.appDef : App := args.InitProposal.appDef (App.new CMD)

/-- Definition of the vote-proposal command (cmds::TxVoteProposal::def). -/
def TxVoteProposal.appDef : App := args.VoteProposal.appDef (App.new CMD)

/-- Definition of the bond command (cmds::Bond::def). -/
def Bond.appDef : App := args.Bond.appDef (App.new CMD)

/-- Definition of the unbond command (cmds::Unbond::def). -/
def Unbond.appDef : App := args.Unbond.appDef (App.new CMD)

/-- Definition of the withdraw command (cmds::Withdraw::def). -/
def Withdraw.appDef : App := args.Withdraw.appDef (App.new CMD)

/-- Definition of the epoch query command (cmds::QueryEpoch::def). -/
def QueryEpoch.appDef : App := args.Query.appDef (App.new CMD)

/-- Definition of the block query command (cmds::QueryBlock::def). -/
def QueryBlock.appDef : App := args.Query.appDef (App.new CMD)

/-- Definition of the balance query command (cmds::QueryBalance::def). -/
def QueryBalance.appDef : App := args.QueryBalance.appDef (App.new CMD)

/-- Definition of the bonds query command (cmds::QueryBonds::def). -/
def QueryBonds.appDef : App := args.QueryBonds.appDef (App.new CMD)

/-- Definition of the voting-power query command (cmds::QueryVotingPower::def). -/
def QueryVotingPower.appDef : App := args.QueryVotingPower.appDef (App.new CMD)

/-- Definition of the commission-rate query command
(cmds::QueryCommissionRate::def; declared but never attached to the client
surface). -/
def QueryCommissionRate.appDef : App := args.QueryCommissionRate.appDef (App.new CMD)

/-- Definition of the slashes query command (cmds::QuerySlashes::def). -/
def QuerySlashes.appDef : App := args.QuerySlashes.appDef (App.new CMD)

/-- Definition of the tx-result query command (cmds::QueryResult::def). -/
def QueryResult.appDef : App := args.QueryResult.appDef (App.new CMD)

/-- Definition of the query-bytes command (cmds::QueryRawBytes::def). -/
def QueryRawBytes.appDef : App := args.QueryRawBytes.appDef (App.new CMD)

/-- Definition of the query-proposal command (cmds::QueryProposal::def). -/
def QueryProposal.appDef : App := args.QueryProposal.appDef (App.new CMD)

/-- Definition of the query-proposal-result command
(cmds::QueryProposalResult::def). -/
def QueryProposalResult.appDef : App := args.QueryProposalResult.appDef (App.new CMD)

/-- Definition of the query-protocol-parameters command
(cmds::QueryProtocolParameters::def). -/
def QueryProtocolParameters.appDef : App :=
  args.QueryProtocolParameters.appDef (App.new CMD)

/-- Definition of the join-network command (cmds::JoinNetwork::def). -/
def JoinNetwork.appDef : App := args.JoinNetwork.appDef (App.new CMD)

/-- Definition of the fetch-wasms command (cmds::FetchWasms::def). -/
def FetchWasms.appDef : App := args.FetchWasms.appDef (App.new CMD)

/-- Definition of the init-network command (cmds::InitNetwork::def). -/
def InitNetwork.appDef : App := args.InitNetwork.appDef (App.new CMD)

/-- Definition of the init-genesis-validator command
(cmds::InitGenesisValidator::def). -/
def InitGenesisValidator.appDef : App := args.InitGenesisValidator.appDef (App.new CMD)

/-- Definition of the utils command group (cmds::Utils::def). -/
def Utils.appDef : App :=
  (((((App.new CMD).subcommand
    JoinNetwork.appDef).subcommand
    FetchWasms.appDef).subcommand
    InitNetwork.appDef).subcommand
    InitGenesisValidator.appDef).setting
    AppSettings.SubcommandRequiredElseHelp

/-- Attach every client subcommand definition to the accumulating surface
(Cmd::add_sub for AnomaClient), in the source's order. -/
def AnomaClient.add_sub (app : App) : App :=
  (((((((((((((((((((((app.subcommand
    (TxCustom.appDef.display_order 1)).subcommand
    (TxTransfer.appDef.display_order 1)).subcommand
    (TxUpdateVp.appDef.display_order 1)).subcommand
    (TxInitAccount.appDef.display_order 1)).subcommand
    (TxInitValidator.appDef.display_order 1)).subcommand
    (TxInitProposal.appDef.display_order 1)).subcommand
    (TxVoteProposal.appDef.display_order 1)).subcommand
    (Bond.appDef.display_order 2)).subcommand
    (Unbond.appDef.display_order 2)).subcommand
    (Withdraw.appDef.display_order 2)).subcommand
    (QueryEpoch.appDef.display_order 3)).subcommand
    (QueryBlock.appDef.display_order 3)).subcommand
    (QueryBalance.appDef.display_order 3)).subcommand
    (QueryBonds.appDef.display_order 3)).subcommand
    (QueryVotingPower.appDef.display_order 3)).subcommand
    (QuerySlashes.appDef.display_order 3)).subcommand
    (QueryResult.appDef.display_order 3)).subcommand
    (QueryRawBytes.appDef.display_order 3)).subcommand
    (QueryProposal.appDef.display_order 3)).subcommand
    (QueryProposalResult.appDef.display_order 3)).subcommand
    (QueryProtocolParameters.appDef.display_order 3)).subcommand
    (Utils.appDef.display_order 5)

end cmds

/-! ## Entry points (dispatchers)

The entry points run clap matching (modelled as receiving the matched
ArgMatches tree), run the root command parse, and either hand back the
typed command value or print usage and exit with code 2.  The collaborator
calls each entry point makes are recorded in an event trace, in call
order, so that call-count properties (Context construction, global
argument parsing) are observable. -/

/-- A collaborator call made by a dispatcher. -/
inductive Event : Type where
  | cmdParse
  | globalParse
  | contextNew
deriving DecidableEq, Repr

/-- Modelled from the spec: the construction failure of the external
Context collaborator (wallet/config load failure), surfaced verbatim. -/
structure ContextError where
  msg : String
deriving DecidableEq, Repr

/-- Modelled from the spec: the Context aggregate (wallet and configuration
anchored at the base directory); opaque here, recording the global
arguments it was constructed from. -/
structure Context where
  fromGlobal : args.Global
deriving DecidableEq, Repr

/-- The result of the combined binary's dispatch (anoma_cli): the matched
command with the raw selected token, a terminal argument parse failure, or
usage printed and process exit with the given code. -/
inductive AnomaDispatch : Type where
  | matched (cmd : cmds.Anoma) (raw_sub : String)
  | argFailed (e : ParseErr)
  | helpExit (code : Nat)
deriving DecidableEq, Repr

/-- The combined binary's dispatcher (anoma_cli): parse the matched input;
return the command and raw token when both are available, otherwise print
help and exit with code 2.  anoma_cli performs no global-argument parsing
and no Context construction itself. -/
def anoma_cli (m : ArgMatches) : AnomaDispatch × List Event :=
  let raw_sub_cmd := m.subcommand.map (fun p => p.1)
  match cmds.Anoma.parse m with
  | some (.error e) => (.argFailed e, [.cmdParse])
  | some (.ok cmd) =>
    match raw_sub_cmd with
    | some raw_sub => (.matched cmd raw_sub, [.cmdParse])
    | none => (.helpExit 2, [.cmdParse])
  | none => (.helpExit 2, [.cmdParse])

/-- The result of the client binary's dispatch (anoma_client_cli). -/
inductive ClientDispatch : Type where
  | withContext (sub : cmds.AnomaClientWithContext) (ctx : Context)
  | withoutContext (sub : cmds.Utils) (global : args.Global)
  | ctxFailed (e : ContextError)
  | argFailed (e : ParseErr)
  | helpExit (code : Nat)
deriving DecidableEq, Repr

/-- The client binary's dispatcher (anoma_client_cli): parse the matched
input; when a command matched, parse the global arguments once and attach a
freshly constructed Context exactly when the command is WithContext; when
nothing matched, print help and exit with code 2.  The Context constructor
is a parameter (the external collaborator) and each collaborator call is
recorded in the event trace in call order. -/
def anoma_client_cli (env : Env) (m : ArgMatches)
    (ctxNew : args.Global → Except ContextError Context) :
    ClientDispatch × List Event :=
  match cmds.AnomaClient.parse m with
  | some (.error e) => (.argFailed e, [.cmdParse])
  | some (.ok cmd) =>
    match args.Global.parse env m with
    | .error e => (.argFailed e, [.cmdParse, .globalParse])
    | .ok global_args =>
      match cmd with
      | .WithContext sub_cmd =>
        match ctxNew global_args with
        | .ok context => (.withContext sub_cmd context, [.cmdParse, .globalParse, .contextNew])
        | .error e => (.ctxFailed e, [.cmdParse, .globalParse, .contextNew])
      | .WithoutContext sub_cmd =>
        (.withoutContext sub_cmd global_args, [.cmdParse, .globalParse])
  | none => (.helpExit 2, [.cmdParse])

/-- The client binary's composed surface (anoma_client_app): the global
arguments and the client subcommands under the application root. -/
def anoma_client_app : App :=
  let app := (App.new APP_NAME).setting AppSettings.SubcommandRequiredElseHelp
  cmds.AnomaClient.add_sub (args.Global.appDef app)

/-- The app value anoma_client_cli actually matches against: the source
applies AnomaClient::add_sub to anoma_client_app a second time. -/
def anoma_client_cli_app : App :=
  cmds.AnomaClient.add_sub anoma_client_app

/-! ## Constraint enforcement

Modelled from the spec: mutual-exclusion constraints are declared on
descriptor keys and enforced at composition time, before any
command-specific parse logic runs; supplying two keys declared mutually
exclusive rejects the invocation with a constraint-violation error that
names the conflicting keys, uniformly for every command. -/

/-- The first declared conflict of this argument violated by the supplied
key set: the pair of the argument's key and a conflicting key, both
supplied. -/
def ArgDef.conflictOf (d : ArgDef) (supplied : List String) : Option (String × String) :=
  d.conflicts.findSome? (fun c =>
    if d.name ∈ supplied ∧ c ∈ supplied then some (d.name, c) else none)

/-- Modelled from the spec: the composition-time constraint check over a
command's declared arguments.  A some result is a constraint violation
naming the two conflicting keys; matching rejects the invocation before
any command parse runs, so the parse never silently picks one value. -/
def findConflict (ds : List ArgDef) (supplied : List String) : Option (String × String) :=
  match ds with
  | [] => none
  | d :: rest =>
    match d.conflictOf supplied with
    | some p => some p
    | none => findConflict rest supplied

/-- The declared argument lists of the common transaction argument set:
what args::Tx::def contributes to every transaction command. -/
def txArgDefs : List ArgDef :=
  [⟨"dry-run", []⟩, ⟨"force", []⟩, ⟨"broadcast-only", []⟩, ⟨"ledger-address", []⟩,
   ⟨"alias", []⟩, ⟨"fee-amount", []⟩, ⟨"fee-token", []⟩, ⟨"gas-limit", []⟩,
   ⟨"signing-key", ["signer"]⟩, ⟨"signer", ["signing-key"]⟩]

/-- The composed definitions of every transaction command of the client
surface (each starts from args::Tx::def). -/
def txCommandDefs : List App :=
  [cmds.TxCustom.appDef, cmds.TxTransfer.appDef, cmds.TxUpdateVp.appDef,
   cmds.TxInitAccount.appDef, cmds.TxInitValidator.appDef,
   cmds.TxInitProposal.appDef, cmds.TxVoteProposal.appDef,
   cmds.Bond.appDef, cmds.Unbond.appDef, cmds.Withdraw.appDef]

/-! ## Sibling or-chain analysis (cmds::Anoma::parse) -/

/-- The first successful parse in a list of sibling attempts: the or-chain
of a command enum's parse, as a list fold. -/
def firstSome : List (Option α) → Option α
  | [] => none
  | o :: rest => o.or (firstSome rest)

/-- The nine sibling parse attempts of cmds::Anoma::parse, in the source's
enumeration order. -/
def anomaBranches (m : ArgMatches) : List (Option (Except ParseErr cmds.Anoma)) :=
  [(cmds.AnomaNode.subParse m).map (fun r => r.map cmds.Anoma.Node),
   (cmds.AnomaClient.subParse m).map (fun r => r.map cmds.Anoma.Client),
   (cmds.AnomaWallet.subParse m).map (fun r => r.map cmds.Anoma.Wallet),
   (cmds.Ledger.parse m).map (fun r => r.map cmds.Anoma.Ledger),
   (cmds.TxCustom.parse m).map (fun r => r.map cmds.Anoma.TxCustom),
   (cmds.TxTransfer.parse m).map (fun r => r.map cmds.Anoma.TxTransfer),
   (cmds.TxUpdateVp.parse m).map (fun r => r.map cmds.Anoma.TxUpdateVp),
   (cmds.TxInitProposal.parse m).map (fun r => r.map cmds.Anoma.TxInitProposal),
   (cmds.TxVoteProposal.parse m).map (fun r => r.map cmds.Anoma.TxVoteProposal)]

/-! ## Token paths (round-trip analysis) -/

/-- The matched-argument tree of an input that selects exactly the given
token path and supplies the given argument tree at the selected leaf. -/
def mkNested : List String → ArgMatches → ArgMatches
  | [], m => m
  | t :: ts, m => .mk [] [] (some (t, mkNested ts m))

/-- The leaf command nodes of the combined binary's tree, each with its
token path and the command value the dispatcher produces from the leaf's
matched arguments (the leaf's argument parse wrapped in the variant
constructors along the path). -/
def anomaLeafCases : List (List String × (ArgMatches → Except ParseErr cmds.Anoma)) :=
  [ -- commands inlined from the node
    (["ledger", "run"], fun _m => .ok (.Ledger (.Run .mk))),
    (["ledger", "reset"], fun _m => .ok (.Ledger (.Reset .mk))),
    -- commands inlined from the client
    (["tx"], fun m =>
      ((args.TxCustom.parse m).map cmds.TxCustom.mk).map cmds.Anoma.TxCustom),
    (["transfer"], fun m =>
      ((args.TxTransfer.parse m).map cmds.TxTransfer.mk).map cmds.Anoma.TxTransfer),
    (["update"], fun m =>
      ((args.TxUpdateVp.parse m).map cmds.TxUpdateVp.mk).map cmds.Anoma.TxUpdateVp),
    (["init-proposal"], fun m =>
      ((args.InitProposal.parse m).map cmds.TxInitProposal.mk).map cmds.Anoma.TxInitProposal),
    (["vote-proposal"], fun m =>
      ((args.VoteProposal.parse m).map cmds.TxVoteProposal.mk).map cmds.Anoma.TxVoteProposal),
    -- the node sub-binary
    (["node", "ledger", "run"], fun _m => .ok (.Node (.Ledger (.Run .mk)))),
    (["node", "ledger", "reset"], fun _m => .ok (.Node (.Ledger (.Reset .mk)))),
    (["node", "config", "gen"], fun _m => .ok (.Node (.Config (.Gen .mk)))),
    -- the client sub-binary, context-dependent commands
    (["client", "tx"], fun m =>
      (((args.TxCustom.parse m).map cmds.TxCustom.mk).map
        (fun s => cmds.AnomaClient.WithContext (.TxCustom s))).map cmds.Anoma.Client),
    (["client", "transfer"], fun m =>
      (((args.TxTransfer.parse m).map cmds.TxTransfer.mk).map
        (fun s => cmds.AnomaClient.WithContext (.TxTransfer s))).map cmds.Anoma.Client),
    (["client", "update"], fun m =>
      (((args.TxUpdateVp.parse m).map cmds.TxUpdateVp.mk).map
        (fun s => cmds.AnomaClient.WithContext (.TxUpdateVp s))).map cmds.Anoma.Client),
    (["client", "init-account"], fun m =>
      (((args.TxInitAccount.parse m).map cmds.TxInitAccount.mk).map
        (fun s => cmds.AnomaClient.WithContext (.TxInitAccount s))).map cmds.Anoma.Client),
    (["client", "init-validator"], fun m =>
      (((args.TxInitValidator.parse m).map cmds.TxInitValidator.mk).map
        (fun s => cmds.AnomaClient.WithContext (.TxInitValidator s))).map cmds.Anoma.Client),
    (["client", "init-proposal"], fun m =>
      (((args.InitProposal.parse m).map cmds.TxInitProposal.mk).map
        (fun s => cmds.AnomaClient.WithContext (.TxInitProposal s))).map cmds.Anoma.Client),
    (["client", "vote-proposal"], fun m =>
      (((args.VoteProposal.parse m).map cmds.TxVoteProposal.mk).map
        (fun s => cmds.AnomaClient.WithContext (.TxVoteProposal s))).map cmds.Anoma.Client),
    (["client", "bond"], fun m =>
      (((args.Bond.parse m).map cmds.Bond.mk).map
        (fun s => cmds.AnomaClient.WithContext (.Bond s))).map cmds.Anoma.Client),
    (["client", "unbond"], fun m =>
      (((args.Unbond.parse m).map cmds.Unbond.mk).map
        (fun s => cmds.AnomaClient.WithContext (.Unbond s))).map cmds.Anoma.Client),
    (["client", "withdraw"], fun m =>
      (((args.Withdraw.parse m).map cmds.Withdraw.mk).map
        (fun s => cmds.AnomaClient.WithContext (.Withdraw s))).map cmds.Anoma.Client),
    (["client", "epoch"], fun m =>
      (((args.Query.parse m).map cmds.QueryEpoch.mk).map
        (fun s => cmds.AnomaClient.WithContext (.QueryEpoch s))).map cmds.Anoma.Client),
    (["client", "block"], fun m =>
      (((args.Query.parse m).map cmds.QueryBlock.mk).map
        (fun s => cmds.AnomaClient.WithContext (.QueryBlock s))).map cmds.Anoma.Client),
    (["client", "balance"], fun m =>
      (((args.QueryBalance.parse m).map cmds.QueryBalance.mk).map
        (fun s => cmds.AnomaClient.WithContext (.QueryBalance s))).map cmds.Anoma.Client),
    (["client", "bonds"], fun m =>
      (((args.QueryBonds.parse m).map cmds.QueryBonds.mk).map
        (fun s => cmds.AnomaClient.WithContext (.QueryBonds s))).map cmds.Anoma.Client),
    (["client", "voting-power"], fun m =>
      (((args.QueryVotingPower.parse m).map cmds.QueryVotingPower.mk).map
        (fun s => cmds.AnomaClient.WithContext (.QueryVotingPower s))).map cmds.Anoma.Client),
    (["client", "slashes"], fun m =>
      (((args.QuerySlashes.parse m).map cmds.QuerySlashes.mk).map
        (fun s => cmds.AnomaClient.WithContext (.QuerySlashes s))).map cmds.Anoma.Client),
    (["client", "tx-result"], fun m =>
      (((args.QueryResult.parse m).map cmds.QueryResult.mk).map
        (fun s => cmds.AnomaClient.WithContext (.QueryResult s))).map cmds.Anoma.Client),
    (["client", "query-bytes"], fun m =>
      (((args.QueryRawBytes.parse m).map cmds.QueryRawBytes.mk).map
        (fun s => cmds.AnomaClient.WithContext (.QueryRawBytes s))).map cmds.Anoma.Client),
    (["client", "query-proposal"], fun m =>
      (((args.QueryProposal.parse m).map cmds.QueryProposal.mk).map
        (fun s => cmds.AnomaClient.WithContext (.QueryProposal s))).map cmds.Anoma.Client),
    (["client", "query-proposal-result"], fun m =>
      (((args.QueryProposalResult.parse m).map cmds.QueryProposalResult.mk).map
        (fun s => cmds.AnomaClient.WithContext (.QueryProposalResult s))).map
        cmds.Anoma.Client),
    (["client", "query-protocol-parameters"], fun m =>
      (((args.QueryProtocolParameters.parse m).map cmds.QueryProtocolParameters.mk).map
        (fun s => cmds.AnomaClient.WithContext (.QueryProtocolParameters s))).map
        cmds.Anoma.Client),
    -- the client sub-binary, utils commands
    (["client", "utils", "join-network"], fun m =>
      ((((args.JoinNetwork.parse m).map cmds.JoinNetwork.mk).map
        cmds.Utils.JoinNetwork).map cmds.AnomaClient.WithoutContext).map cmds.Anoma.Client),
    (["client", "utils", "fetch-wasms"], fun m =>
      ((((args.FetchWasms.parse m).map cmds.FetchWasms.mk).map
        cmds.Utils.FetchWasms).map cmds.AnomaClient.WithoutContext).map cmds.Anoma.Client),
    (["client", "utils", "init-network"], fun m =>
      ((((args.InitNetwork.parse m).map cmds.InitNetwork.mk).map
        cmds.Utils.InitNetwork).map cmds.AnomaClient.WithoutContext).map cmds.Anoma.Client),
    (["client", "utils", "init-genesis-validator"], fun m =>
      ((((args.InitGenesisValidator.parse m).map cmds.InitGenesisValidator.mk).map
        cmds.Utils.InitGenesisValidator).map cmds.AnomaClient.WithoutContext).map
        cmds.Anoma.Client),
    -- the wallet sub-binary
    (["wallet", "key", "gen"], fun m =>
      ((((args.KeyAndAddressGen.parse m).map cmds.KeyGen.mk).map cmds.WalletKey.Gen).map
        cmds.AnomaWallet.Key).map cmds.Anoma.Wallet),
    (["wallet", "key", "find"], fun m =>
      ((((args.KeyFind.parse m).map cmds.KeyFind.mk).map cmds.WalletKey.Find).map
        cmds.AnomaWallet.Key).map cmds.Anoma.Wallet),
    (["wallet", "key", "list"], fun m =>
      ((((args.KeyList.parse m).map cmds.KeyList.mk).map cmds.WalletKey.List).map
        cmds.AnomaWallet.Key).map cmds.Anoma.Wallet),
    (["wallet", "key", "export"], fun m =>
      ((((args.KeyExport.parse m).map cmds.Export.mk).map cmds.WalletKey.Export).map
        cmds.AnomaWallet.Key).map cmds.Anoma.Wallet),
    (["wallet", "address", "gen"], fun m =>
      ((((args.KeyAndAddressGen.parse m).map cmds.AddressGen.mk).map
        cmds.WalletAddress.Gen).map cmds.AnomaWallet.Address).map cmds.Anoma.Wallet),
    (["wallet", "address", "find"], fun m =>
      ((((args.AddressOrAliasFind.parse m).map cmds.AddressOrAliasFind.mk).map
        cmds.WalletAddress.Find).map cmds.AnomaWallet.Address).map cmds.Anoma.Wallet),
    (["wallet", "address", "list"], fun _m =>
      .ok (.Wallet (.Address (.List .mk)))),
    (["wallet", "address", "add"], fun m =>
      ((((args.AddressAdd.parse m).map cmds.AddressAdd.mk).map
        cmds.WalletAddress.Add).map cmds.AnomaWallet.Address).map cmds.Anoma.Wallet)]

/-! ## Concrete inputs used by the witnesses -/

/-- An empty matched input (no values, no flags, no subcommand). -/
def emptyMatches : ArgMatches := .mk [] [] none

/-- A matched client input selecting the epoch query (a WithContext command). -/
def epochMatches : ArgMatches := mkNested ["epoch"] emptyMatches

/-- A matched client input selecting utils join-network (a WithoutContext
command) with its required chain id supplied. -/
def joinNetworkMatches : ArgMatches :=
  mkNested ["utils", "join-network"] (.mk [("chain-id", "public-testnet-1")] [] none)

/-- A matched client input selecting the epoch query while supplying an
out-of-vocabulary value for the global mode argument at the root. -/
def epochBadModeMatches : ArgMatches :=
  .mk [("mode", "garbage")] [] (some ("epoch", emptyMatches))

/-- A Context-constructor collaborator stub that always succeeds. -/
def ctxNewOk : args.Global → Except ContextError Context := fun g => .ok ⟨g⟩

/-- The parsed epoch query command of the client surface at an empty leaf. -/
def epochResult : Except ParseErr cmds.AnomaClient :=
  .ok (.WithContext (.QueryEpoch ⟨⟨⟨"127.0.0.1:26657"⟩⟩⟩))

/-- The parsed join-network command at the witness input. -/
def joinNetworkResult : Except ParseErr cmds.AnomaClient :=
  .ok (.WithoutContext (.JoinNetwork ⟨⟨⟨"public-testnet-1"⟩, none, none, false⟩⟩))

/-! ## Shared lemmas -/

/-- Or on options is associative. -/
theorem option_or_assoc (a b c : Option α) : (a.or b).or c = a.or (b.or c) := by
  cases a <;> rfl

/-- None is a right identity of or on options. -/
theorem option_or_none (a : Option α) : a.or none = a := by
  cases a <;> rfl

/-- None is a left identity of or on options. -/
theorem option_none_or (a : Option α) : (none : Option α).or a = a := rfl

/-- A some result of an or comes from one of its two sides. -/
theorem or_eq_some_elim {a : α} {o o' : Option α} (h : o.or o' = some a) :
    o = some a ∨ o' = some a := by
  cases o with
  | some x => exact .inl h
  | none => exact .inr h

/-- A selected subcommand determines the subcommand slot: when
subcommand_matches t yields a tree, the selected subcommand is exactly t
with that tree. -/
theorem subcommandMatches_eq_some {m : ArgMatches} {t : String} {x : ArgMatches}
    (h : m.subcommandMatches t = some x) : m.subcommand = some (t, x) := by
  unfold ArgMatches.subcommandMatches at h
  cases hs : m.subcommand with
  | none => rw [hs] at h; cases h
  | some p =>
    obtain ⟨n, s⟩ := p
    rw [hs] at h
    by_cases hn : n = t
    · subst hn
      simp at h
      rw [h]
    · simp [hn] at h

/-- Global argument parsing in closed form: the only failure source is the
mode conversion; chain id and wasm dir are the supplied values (absence
yields none) and the base directory is the supplied value or the
environment-then-static default. -/
theorem global_parse_eq (env : Env) (m : ArgMatches) :
    args.Global.parse env m = (args.modeFromOpt (m.valueOf "mode")).map
      (fun md =>
        { chain_id := (m.valueOf "chain-id").map (fun s => ⟨s⟩),
          base_dir := (m.valueOf "base-dir").getD
            (envThenStatic "ANOMA_BASE_DIR" DEFAULT_BASE_DIR env),
          wasm_dir := m.valueOf "wasm-dir",
          mode := md }) := by
  simp only [args.Global.parse, ArgOptSpec.parse, ArgDefaultEnvSpec.parse,
    args.CHAIN_ID_OPT, args.CHAIN_ID, ArgSpec.opt, args.BASE_DIR, args.WASM_DIR, args.MODE,
    ChainId.conv, strConv, args.modeFromOpt]
  cases hc : m.valueOf "chain-id" <;> cases hb : m.valueOf "base-dir" <;>
    cases hw : m.valueOf "wasm-dir" <;> cases hm : m.valueOf "mode" <;> rfl

/-! ## Claims -/

/-- C2: for every argument with a declared environment-then-static default
source, precedence holds: an explicitly supplied flag value overrides the
environment-variable value, which overrides the static default; in
particular for the base-dir argument with ANOMA_BASE_DIR and the static
default base directory. -/
theorem claim2_default_precedence :
    (∀ (name varName static : String) (env : Env) (m : ArgMatches),
      (∀ v, m.valueOf name = some v →
        ArgDefaultEnvSpec.parse ⟨name, strConv, envThenStatic varName static⟩ env m = .ok v)
      ∧ (m.valueOf name = none → ∀ d, envVar env varName = some d →
        ArgDefaultEnvSpec.parse ⟨name, strConv, envThenStatic varName static⟩ env m = .ok d)
      ∧ (m.valueOf name = none → envVar env varName = none →
        ArgDefaultEnvSpec.parse ⟨name, strConv, envThenStatic varName static⟩ env m
          = .ok static))
    ∧ (∀ (env : Env) (m : ArgMatches),
      (∀ v, m.valueOf "base-dir" = some v → args.BASE_DIR.parse env m = .ok v)
      ∧ (m.valueOf "base-dir" = none → ∀ d, envVar env "ANOMA_BASE_DIR" = some d →
          args.BASE_DIR.parse env m = .ok d)
      ∧ (m.valueOf "base-dir" = none → envVar env "ANOMA_BASE_DIR" = none →
          args.BASE_DIR.parse env m = .ok DEFAULT_BASE_DIR)) := by
  constructor
  · intro name varName static env m
    refine ⟨?_, ?_, ?_⟩
    · intro v h
      simp [ArgDefaultEnvSpec.parse, h, strConv]
    · intro h d hd
      simp [ArgDefaultEnvSpec.parse, h, envThenStatic, hd]
    · intro h hd
      simp [ArgDefaultEnvSpec.parse, h, envThenStatic, hd]
  · intro env m
    refine ⟨?_, ?_, ?_⟩
    · intro v h
      simp [args.BASE_DIR, ArgDefaultEnvSpec.parse, h, strConv]
    · intro h d hd
      simp [args.BASE_DIR, ArgDefaultEnvSpec.parse, h, envThenStatic, hd]
    · intro h hd
      simp [args.BASE_DIR, ArgDefaultEnvSpec.parse, h, envThenStatic, hd]

/-- Witness for C2 at concrete inputs: a supplied base-dir flag beats a set
ANOMA_BASE_DIR; a set ANOMA_BASE_DIR beats the static default; with
neither, the static default base directory results. -/
theorem claim2_default_precedence_witness :
    args.BASE_DIR.parse [("ANOMA_BASE_DIR", "/env")]
      (.mk [("base-dir", "/flag")] [] none) = .ok "/flag"
    ∧ args.BASE_DIR.parse [("ANOMA_BASE_DIR", "/env")] emptyMatches = .ok "/env"
    ∧ args.BASE_DIR.parse [] emptyMatches = .ok DEFAULT_BASE_DIR :=
  ⟨(claim2_default_precedence.2 [("ANOMA_BASE_DIR", "/env")]
      (.mk [("base-dir", "/flag")] [] none)).1 "/flag" (by decide),
   (claim2_default_precedence.2 [("ANOMA_BASE_DIR", "/env")] emptyMatches).2.1
      (by decide) "/env" (by decide),
   (claim2_default_precedence.2 [] emptyMatches).2.2 (by decide) (by decide)⟩

/-- C10 counterexample: global argument parsing is not total: a supplied
mode value outside the fixed enumeration (Validator, Full, Seed) is a
terminating parse error naming the mode key and the offending text, not a
Global value. -/
theorem claim10_cex_bad_mode_fails :
    args.Global.parse [] (.mk [("mode", "garbage")] [] none)
      = .error (.badValue "mode" "garbage") := by decide

/-- C10 as amended: global argument parsing fails only through a supplied
out-of-vocabulary mode value: in closed form it is the fallible mode
conversion mapped over the remaining fields, so whenever the mode argument
is absent it returns a Global value (never an error and never an exit)
whose optional fields are none exactly when absent and whose base
directory always resolves through its default function. -/
theorem claim10_amended_global_parse :
    ∀ (env : Env) (m : ArgMatches),
      args.Global.parse env m = (args.modeFromOpt (m.valueOf "mode")).map
        (fun md =>
          { chain_id := (m.valueOf "chain-id").map (fun s => ⟨s⟩),
            base_dir := (m.valueOf "base-dir").getD
              (envThenStatic "ANOMA_BASE_DIR" DEFAULT_BASE_DIR env),
            wasm_dir := m.valueOf "wasm-dir",
            mode := md })
      ∧ (m.valueOf "mode" = none →
          args.Global.parse env m = .ok
            { chain_id := (m.valueOf "chain-id").map (fun s => ⟨s⟩),
              base_dir := (m.valueOf "base-dir").getD
                (envThenStatic "ANOMA_BASE_DIR" DEFAULT_BASE_DIR env),
              wasm_dir := m.valueOf "wasm-dir",
              mode := none }) := by
  intro env m
  refine ⟨global_parse_eq env m, ?_⟩
  intro h
  rw [global_parse_eq, h]
  rfl

/-- Witness for the amended C10 at the empty input: with no mode supplied
parse succeeds with every optional field none and the static default base
directory. -/
theorem claim10_amended_global_parse_witness :
    args.Global.parse [] emptyMatches = .ok
      { chain_id := none, base_dir := DEFAULT_BASE_DIR,
        wasm_dir := none, mode := none } :=
  (claim10_amended_global_parse [] emptyMatches).2 (by decide)

/-- C5: when the ledger token is selected with no sub-token, Ledger::parse
resolves to the designated default child Run (not none and not an error);
with a run or reset sub-token it returns the corresponding variant. -/
theorem claim5_ledger_default_run :
    ∀ (m sub : ArgMatches), m.subcommandMatches "ledger" = some sub →
      ((sub.subcommand = none → cmds.Ledger.parse m = some (.ok (.Run .mk)))
      ∧ (∀ m2, sub.subcommandMatches "run" = some m2 →
          cmds.Ledger.parse m = some (.ok (.Run .mk)))
      ∧ (∀ m2, sub.subcommandMatches "reset" = some m2 →
          cmds.Ledger.parse m = some (.ok (.Reset .mk)))) := by
  intro m sub h
  refine ⟨?_, ?_, ?_⟩
  · intro hs
    simp only [cmds.Ledger.parse, cmds.Ledger.CMD]
    rw [h]
    simp [Option.bind, cmds.LedgerRun.parse, cmds.LedgerRun.CMD, cmds.LedgerReset.parse,
      cmds.LedgerReset.CMD, ArgMatches.subcommandMatches, hs, Option.or]
  · intro m2 h2
    simp only [cmds.Ledger.parse, cmds.Ledger.CMD]
    rw [h]
    simp [Option.bind, cmds.LedgerRun.parse, cmds.LedgerRun.CMD, h2, Option.or, Except.map]
  · intro m2 h2
    have hsub := subcommandMatches_eq_some h2
    simp only [cmds.Ledger.parse, cmds.Ledger.CMD]
    rw [h]
    simp [Option.bind, cmds.LedgerRun.parse, cmds.LedgerRun.CMD, cmds.LedgerReset.parse,
      cmds.LedgerReset.CMD, ArgMatches.subcommandMatches, hsub, Option.or, Except.map]

/-- Witness for C5 at concrete inputs: bare ledger resolves to Run; ledger
run gives Run; ledger reset gives Reset. -/
theorem claim5_ledger_default_run_witness :
    cmds.Ledger.parse (mkNested ["ledger"] emptyMatches) = some (.ok (.Run .mk))
    ∧ cmds.Ledger.parse (mkNested ["ledger", "run"] emptyMatches) = some (.ok (.Run .mk))
    ∧ cmds.Ledger.parse (mkNested ["ledger", "reset"] emptyMatches)
        = some (.ok (.Reset .mk)) :=
  ⟨(claim5_ledger_default_run (mkNested ["ledger"] emptyMatches) emptyMatches rfl).1 rfl,
   (claim5_ledger_default_run (mkNested ["ledger", "run"] emptyMatches)
      (mkNested ["run"] emptyMatches) rfl).2.1 emptyMatches rfl,
   (claim5_ledger_default_run (mkNested ["ledger", "reset"] emptyMatches)
      (mkNested ["reset"] emptyMatches) rfl).2.2 emptyMatches rfl⟩

/-- C6: when no command variant matches, each dispatcher prints usage and
exits with code 2 (the helpExit 2 outcome) and returns no command value:
for the combined binary (anoma_cli) and the client binary (anoma_client_cli). -/
theorem claim6_no_match_help_exit2 :
    ∀ (m : ArgMatches),
      (cmds.Anoma.parse m = none → (anoma_cli m).1 = .helpExit 2)
      ∧ (∀ (env : Env) (ctxNew : args.Global → Except ContextError Context),
          cmds.AnomaClient.parse m = none →
            (anoma_client_cli env m ctxNew).1 = .helpExit 2) := by
  intro m
  constructor
  · intro h
    simp [anoma_cli, h]
  · intro env ctxNew h
    unfold anoma_client_cli
    rw [h]

/-- Witness for C6 at the empty input, on which neither root parse matches. -/
theorem claim6_no_match_help_exit2_witness :
    (anoma_cli emptyMatches).1 = .helpExit 2
    ∧ (anoma_client_cli [] emptyMatches ctxNewOk).1 = .helpExit 2 :=
  ⟨(claim6_no_match_help_exit2 emptyMatches).1 (by decide),
   (claim6_no_match_help_exit2 emptyMatches).2 [] ctxNewOk (by decide)⟩

/-- C1 counterexample: Context::new is not called exactly once on every
matched WithContext input: on a client epoch invocation carrying an
out-of-vocabulary global mode value the command variant matches as
WithContext, but global-argument parsing terminates the invocation first,
so the trace records zero Context constructions. -/
theorem claim1_cex_mode_failure_skips_context_new :
    cmds.AnomaClient.parse epochBadModeMatches
      = some (.ok (.WithContext (.QueryEpoch ⟨⟨⟨"127.0.0.1:26657"⟩⟩⟩)))
    ∧ (anoma_client_cli [] epochBadModeMatches ctxNewOk).2.count .contextNew = 0 := by
  constructor <;> decide

/-- C1 as amended: in anoma_client_cli the external entry point Context::new
is called exactly once when the parsed command variant is WithContext and
the global arguments also parse successfully (whether Context construction
itself succeeds or fails); it is never called when global parsing fails,
when the variant is WithoutContext, or when nothing matched, for every
matched input and every Context collaborator. -/
theorem claim1_amended_context_new :
    ∀ (env : Env) (m : ArgMatches) (ctxNew : args.Global → Except ContextError Context),
      (∀ sub g, cmds.AnomaClient.parse m = some (.ok (.WithContext sub)) →
        args.Global.parse env m = .ok g →
        (anoma_client_cli env m ctxNew).2.count .contextNew = 1)
      ∧ (∀ sub e, cmds.AnomaClient.parse m = some (.ok (.WithContext sub)) →
        args.Global.parse env m = .error e →
        (anoma_client_cli env m ctxNew).2.count .contextNew = 0)
      ∧ (∀ sub, cmds.AnomaClient.parse m = some (.ok (.WithoutContext sub)) →
        (anoma_client_cli env m ctxNew).2.count .contextNew = 0)
      ∧ (cmds.AnomaClient.parse m = none →
        (anoma_client_cli env m ctxNew).2.count .contextNew = 0) := by
  intro env m ctxNew
  refine ⟨?_, ?_, ?_, ?_⟩
  · intro sub g h hg
    unfold anoma_client_cli
    rw [h, hg]
    dsimp only
    cases hcn : ctxNew g <;> rfl
  · intro sub e h hg
    unfold anoma_client_cli
    rw [h, hg]
    rfl
  · intro sub h
    unfold anoma_client_cli
    rw [h]
    cases hg : args.Global.parse env m <;> rfl
  · intro h
    unfold anoma_client_cli
    rw [h]
    rfl

/-- Witness for the amended C1: on the epoch query with well-formed globals
the trace records one Context construction; on the epoch query with a bad
mode value it records none; on utils join-network (WithoutContext) it
records none; on the empty input (no match) it records none. -/
theorem claim1_amended_context_new_witness :
    (anoma_client_cli [] epochMatches ctxNewOk).2.count .contextNew = 1
    ∧ (anoma_client_cli [] epochBadModeMatches ctxNewOk).2.count .contextNew = 0
    ∧ (anoma_client_cli [] joinNetworkMatches ctxNewOk).2.count .contextNew = 0
    ∧ (anoma_client_cli [] emptyMatches ctxNewOk).2.count .contextNew = 0 :=
  ⟨(claim1_amended_context_new [] epochMatches ctxNewOk).1
      (.QueryEpoch ⟨⟨⟨"127.0.0.1:26657"⟩⟩⟩)
      { chain_id := none, base_dir := DEFAULT_BASE_DIR,
        wasm_dir := none, mode := none } (by decide) (by decide),
   (claim1_amended_context_new [] epochBadModeMatches ctxNewOk).2.1
      (.QueryEpoch ⟨⟨⟨"127.0.0.1:26657"⟩⟩⟩) (.badValue "mode" "garbage")
      (by decide) (by decide),
   (claim1_amended_context_new [] joinNetworkMatches ctxNewOk).2.2.1
      (.JoinNetwork ⟨⟨⟨"public-testnet-1"⟩, none, none, false⟩⟩) (by decide),
   (claim1_amended_context_new [] emptyMatches ctxNewOk).2.2.2 (by decide)⟩

/-- C7 counterexample: the claim says each entry point parses GlobalArgs
exactly once per invocation before subcommand dispatch, and cites anoma_cli;
but on a matched ledger invocation anoma_cli returns a command while its
trace contains zero global-argument parses, so global arguments are not
parsed at all by that dispatcher. -/
theorem claim7_cex_anoma_cli_no_global_parse :
    (anoma_cli (mkNested ["ledger"] emptyMatches)).1
      = .matched (.Ledger (.Run .mk)) "ledger"
    ∧ (anoma_cli (mkNested ["ledger"] emptyMatches)).2.count .globalParse = 0 := by
  constructor <;> rfl

/-- C7 as amended: in anoma_client_cli, GlobalArgs are parsed exactly once
whenever a command variant matches, immediately after command matching and
before the dispatch on the variant (hence before any Context construction);
anoma_cli itself performs no global-argument parsing on any input. -/
theorem claim7_amended_global_parse_once :
    (∀ (env : Env) (m : ArgMatches) (ctxNew : args.Global → Except ContextError Context)
      (cmd : cmds.AnomaClient), cmds.AnomaClient.parse m = some (.ok cmd) →
        (anoma_client_cli env m ctxNew).2.count .globalParse = 1
        ∧ (anoma_client_cli env m ctxNew).2.take 2 = [.cmdParse, .globalParse])
    ∧ (∀ m : ArgMatches, (anoma_cli m).2.count .globalParse = 0) := by
  constructor
  · intro env m ctxNew cmd h
    unfold anoma_client_cli
    rw [h]
    cases hg : args.Global.parse env m with
    | error e => exact ⟨rfl, rfl⟩
    | ok g =>
      cases cmd with
      | WithContext sub =>
        dsimp only
        cases hcn : ctxNew g <;> exact ⟨rfl, rfl⟩
      | WithoutContext sub => exact ⟨rfl, rfl⟩
  · intro m
    unfold anoma_cli
    cases cmds.Anoma.parse m with
    | none => rfl
    | some e =>
      cases e with
      | error _ => rfl
      | ok c => cases m.subcommand <;> rfl

/-- Witness for the amended C7 at the epoch query input. -/
theorem claim7_amended_global_parse_once_witness :
    (anoma_client_cli [] epochMatches ctxNewOk).2.count .globalParse = 1
    ∧ (anoma_client_cli [] epochMatches ctxNewOk).2.take 2
        = [.cmdParse, .globalParse] :=
  claim7_amended_global_parse_once.1 [] epochMatches ctxNewOk
    (.WithContext (.QueryEpoch ⟨⟨⟨"127.0.0.1:26657"⟩⟩⟩)) (by decide)

/-- A violation found among a key's declared conflicts is a declared
conflict of that key with both keys supplied. -/
theorem findSomeConflict_sound {n : String} {l s : List String} {a b : String}
    (h : l.findSome? (fun c => if n ∈ s ∧ c ∈ s then some (n, c) else none)
      = some (a, b)) :
    n = a ∧ b ∈ l ∧ a ∈ s ∧ b ∈ s := by
  induction l with
  | nil => cases h
  | cons c t ih =>
    simp only [List.findSome?] at h
    by_cases hcs : n ∈ s ∧ c ∈ s
    · simp only [if_pos hcs] at h
      have h2 := Option.some.inj h
      have ha : n = a := congrArg Prod.fst h2
      have hb : c = b := congrArg Prod.snd h2
      subst ha; subst hb
      exact ⟨rfl, List.mem_cons_self _ _, hcs.1, hcs.2⟩
    · simp only [if_neg hcs] at h
      obtain ⟨ha, hb, hs⟩ := ih h
      exact ⟨ha, List.mem_cons_of_mem c hb, hs⟩

/-- When no violation is found among a key's declared conflicts, no
declared pair of that key is fully supplied. -/
theorem findSomeConflict_none {n : String} {l s : List String}
    (h : l.findSome? (fun c => if n ∈ s ∧ c ∈ s then some (n, c) else none) = none) :
    ∀ c ∈ l, ¬(n ∈ s ∧ c ∈ s) := by
  induction l with
  | nil => intro c hc; cases hc
  | cons c t ih =>
    simp only [List.findSome?] at h
    by_cases hcs : n ∈ s ∧ c ∈ s
    · simp only [if_pos hcs] at h
      cases h
    · simp only [if_neg hcs] at h
      intro c2 hc2
      rcases List.mem_cons.mp hc2 with rfl | hc3
      · exact hcs
      · exact ih h c2 hc3

/-- A reported violation of a declared argument list comes from a declared
conflict of one of its arguments, with both keys supplied. -/
theorem findConflict_sound {ds : List ArgDef} {s : List String} {a b : String}
    (h : findConflict ds s = some (a, b)) :
    (∃ d ∈ ds, d.name = a ∧ b ∈ d.conflicts) ∧ a ∈ s ∧ b ∈ s := by
  induction ds with
  | nil => cases h
  | cons d rest ih =>
    unfold findConflict at h
    cases hc : d.conflictOf s with
    | some p =>
      rw [hc] at h
      have hp : p = (a, b) := Option.some.inj h
      subst hp
      obtain ⟨hn, hb, ha2, hb2⟩ := findSomeConflict_sound hc
      exact ⟨⟨d, List.mem_cons_self _ _, hn, hb⟩, ha2, hb2⟩
    | none =>
      rw [hc] at h
      obtain ⟨⟨d2, hd2, hp⟩, hs⟩ := ih h
      exact ⟨⟨d2, List.mem_cons_of_mem d hd2, hp⟩, hs⟩

/-- When no violation is reported for a declared argument list, no declared
conflict pair of any of its arguments is fully supplied. -/
theorem findConflict_none {ds : List ArgDef} {s : List String}
    (h : findConflict ds s = none) :
    ∀ d ∈ ds, ∀ c ∈ d.conflicts, ¬(d.name ∈ s ∧ c ∈ s) := by
  induction ds with
  | nil => intro d hd; cases hd
  | cons d0 rest ih =>
    unfold findConflict at h
    cases hc : d0.conflictOf s with
    | some p => rw [hc] at h; cases h
    | none =>
      rw [hc] at h
      intro d hd c hcd hboth
      rcases List.mem_cons.mp hd with rfl | hd2
      · exact findSomeConflict_none hc c hcd hboth
      · exact ih h d hd2 c hcd hboth

/-- Scanning the common transaction arguments with both signing keys
supplied reports exactly the signing-key/signer conflict, whatever
arguments a command declares after them. -/
theorem findConflict_tx_signing {rest : List ArgDef} {s : List String}
    (h1 : "signing-key" ∈ s) (h2 : "signer" ∈ s) :
    findConflict (txArgDefs ++ rest) s = some ("signing-key", "signer") := by
  simp [txArgDefs, findConflict, ArgDef.conflictOf, List.findSome?, h1, h2]

/-- Each transaction command's declared arguments start with the common
transaction argument set. -/
theorem txCommandDefs_argDefs :
    ∀ app ∈ txCommandDefs, ∃ rest, app.argDefs = txArgDefs ++ rest := by
  intro app h
  fin_cases h <;> exact ⟨_, rfl⟩

/-- C3: supplying both members of a declared mutually-exclusive pair is a
constraint violation that names the conflicting keys, and matching rejects
the invocation rather than silently picking one value: a signing key
together with a signer on every transaction command, and a proposal id
together with the offline flag or a data path on vote-proposal. -/
theorem claim3_mutual_exclusion :
    (∀ app ∈ txCommandDefs, ∀ s : List String,
      "signing-key" ∈ s → "signer" ∈ s →
        findConflict app.argDefs s = some ("signing-key", "signer"))
    ∧ (∀ s : List String, "proposal-id" ∈ s → ("offline" ∈ s ∨ "data-path" ∈ s) →
        ∃ a b, findConflict cmds.TxVoteProposal.appDef.argDefs s = some (a, b)
          ∧ (∃ d ∈ cmds.TxVoteProposal.appDef.argDefs, d.name = a ∧ b ∈ d.conflicts)
          ∧ a ∈ s ∧ b ∈ s) := by
  constructor
  · intro app happ s h1 h2
    obtain ⟨rest, hd⟩ := txCommandDefs_argDefs app happ
    rw [hd]
    exact findConflict_tx_signing h1 h2
  · intro s hp ho
    cases hfc : findConflict cmds.TxVoteProposal.appDef.argDefs s with
    | some p =>
      obtain ⟨a, b⟩ := p
      obtain ⟨hd, ha, hb⟩ := findConflict_sound hfc
      exact ⟨a, b, rfl, hd, ha, hb⟩
    | none =>
      exfalso
      have hnone := findConflict_none hfc
      have hmem : (⟨"proposal-id", ["offline", "data-path"]⟩ : ArgDef)
          ∈ cmds.TxVoteProposal.appDef.argDefs := by decide
      rcases ho with ho | ho
      · exact hnone _ hmem "offline" (by decide) ⟨hp, ho⟩
      · exact hnone _ hmem "data-path" (by decide) ⟨hp, ho⟩

/-- Witness for C3: on the custom transaction command with both signing
keys supplied the checker names the signing-key/signer pair; on
vote-proposal with a proposal id and the offline flag it reports a
declared, fully supplied pair. -/
theorem claim3_mutual_exclusion_witness :
    findConflict cmds.TxCustom.appDef.argDefs ["signing-key", "signer"]
      = some ("signing-key", "signer")
    ∧ ∃ a b, findConflict cmds.TxVoteProposal.appDef.argDefs ["proposal-id", "offline"]
        = some (a, b)
      ∧ (∃ d ∈ cmds.TxVoteProposal.appDef.argDefs, d.name = a ∧ b ∈ d.conflicts)
      ∧ a ∈ ["proposal-id", "offline"] ∧ b ∈ ["proposal-id", "offline"] :=
  ⟨claim3_mutual_exclusion.1 cmds.TxCustom.appDef (List.mem_cons_self _ _)
      ["signing-key", "signer"] (by decide) (by decide),
   claim3_mutual_exclusion.2 ["proposal-id", "offline"] (by decide)
      (Or.inl (by decide))⟩

/-- With at most one attempt succeeding (pairwise, one of any two sibling
attempts is none), the first success is invariant under reordering the
attempt list. -/
theorem firstSome_perm {l l' : List (Option α)} (p : l.Perm l')
    (hp : l.Pairwise (fun a b => a = none ∨ b = none)) :
    firstSome l = firstSome l' := by
  induction p with
  | nil => rfl
  | cons x p ih =>
    simp only [firstSome]
    rw [ih (List.pairwise_cons.mp hp).2]
  | swap a b t =>
    rcases (List.pairwise_cons.mp hp).1 a (List.mem_cons_self a t) with h | h <;>
      rw [h] <;> simp only [firstSome, option_none_or]
  | trans p1 p2 ih1 ih2 =>
    rw [ih1 hp]
    exact ih2 ((p1.pairwise_iff (fun {x y} h => Or.symm h)).mp hp)

/-- cmds::Anoma::parse is the first success of its sibling attempt list. -/
theorem anoma_parse_eq_firstSome (m : ArgMatches) :
    cmds.Anoma.parse m = firstSome (anomaBranches m) := by
  simp only [cmds.Anoma.parse, anomaBranches, firstSome, option_or_assoc, option_or_none]

/-- At most one sibling attempt of cmds::Anoma::parse can succeed on any
matched input: matching is by exact token equality against the single
selected subcommand, and the nine sibling tokens are distinct. -/
theorem anomaBranches_pairwise (m : ArgMatches) :
    (anomaBranches m).Pairwise (fun a b => a = none ∨ b = none) := by
  obtain ⟨vals, flags, sub⟩ := m
  rcases sub with _ | ⟨name, m2⟩
  · simp [anomaBranches, cmds.AnomaNode.subParse, cmds.AnomaClient.subParse,
      cmds.AnomaWallet.subParse, cmds.Ledger.parse, cmds.TxCustom.parse,
      cmds.TxTransfer.parse, cmds.TxUpdateVp.parse, cmds.TxInitProposal.parse,
      cmds.TxVoteProposal.parse, cmds.AnomaNode.CMD, cmds.AnomaClient.CMD,
      cmds.AnomaWallet.CMD, cmds.Ledger.CMD, cmds.TxCustom.CMD, cmds.TxTransfer.CMD,
      cmds.TxUpdateVp.CMD, cmds.TxInitProposal.CMD, cmds.TxVoteProposal.CMD,
      NODE_CMD, CLIENT_CMD, WALLET_CMD, ArgMatches.subcommandMatches,
      ArgMatches.subcommand, List.pairwise_cons]
  · by_cases h1 : name = "node"
    · subst h1
      simp [anomaBranches, cmds.AnomaNode.subParse, cmds.AnomaClient.subParse,
        cmds.AnomaWallet.subParse, cmds.Ledger.parse, cmds.TxCustom.parse,
        cmds.TxTransfer.parse, cmds.TxUpdateVp.parse, cmds.TxInitProposal.parse,
        cmds.TxVoteProposal.parse, cmds.AnomaNode.CMD, cmds.AnomaClient.CMD,
        cmds.AnomaWallet.CMD, cmds.Ledger.CMD, cmds.TxCustom.CMD, cmds.TxTransfer.CMD,
        cmds.TxUpdateVp.CMD, cmds.TxInitProposal.CMD, cmds.TxVoteProposal.CMD,
        NODE_CMD, CLIENT_CMD, WALLET_CMD, ArgMatches.subcommandMatches,
        ArgMatches.subcommand, List.pairwise_cons]
    · by_cases h2 : name = "client"
      · subst h2
        simp [anomaBranches, cmds.AnomaNode.subParse, cmds.AnomaClient.subParse,
          cmds.AnomaWallet.subParse, cmds.Ledger.parse, cmds.TxCustom.parse,
          cmds.TxTransfer.parse, cmds.TxUpdateVp.parse, cmds.TxInitProposal.parse,
          cmds.TxVoteProposal.parse, cmds.AnomaNode.CMD, cmds.AnomaClient.CMD,
          cmds.AnomaWallet.CMD, cmds.Ledger.CMD, cmds.TxCustom.CMD, cmds.TxTransfer.CMD,
          cmds.TxUpdateVp.CMD, cmds.TxInitProposal.CMD, cmds.TxVoteProposal.CMD,
          NODE_CMD, CLIENT_CMD, WALLET_CMD, ArgMatches.subcommandMatches,
          ArgMatches.subcommand, List.pairwise_cons]
      · by_cases h3 : name = "wallet"
        · subst h3
          simp [anomaBranches, cmds.AnomaNode.subParse, cmds.AnomaClient.subParse,
            cmds.AnomaWallet.subParse, cmds.Ledger.parse, cmds.TxCustom.parse,
            cmds.TxTransfer.parse, cmds.TxUpdateVp.parse, cmds.TxInitProposal.parse,
            cmds.TxVoteProposal.parse, cmds.AnomaNode.CMD, cmds.AnomaClient.CMD,
            cmds.AnomaWallet.CMD, cmds.Ledger.CMD, cmds.TxCustom.CMD,
            cmds.TxTransfer.CMD, cmds.TxUpdateVp.CMD, cmds.TxInitProposal.CMD,
            cmds.TxVoteProposal.CMD, NODE_CMD, CLIENT_CMD, WALLET_CMD,
            ArgMatches.subcommandMatches, ArgMatches.subcommand, List.pairwise_cons]
        · by_cases h4 : name = "ledger"
          · subst h4
            simp [anomaBranches, cmds.AnomaNode.subParse, cmds.AnomaClient.subParse,
              cmds.AnomaWallet.subParse, cmds.Ledger.parse, cmds.TxCustom.parse,
              cmds.TxTransfer.parse, cmds.TxUpdateVp.parse, cmds.TxInitProposal.parse,
              cmds.TxVoteProposal.parse, cmds.AnomaNode.CMD, cmds.AnomaClient.CMD,
              cmds.AnomaWallet.CMD, cmds.Ledger.CMD, cmds.TxCustom.CMD,
              cmds.TxTransfer.CMD, cmds.TxUpdateVp.CMD, cmds.TxInitProposal.CMD,
              cmds.TxVoteProposal.CMD, NODE_CMD, CLIENT_CMD, WALLET_CMD,
              ArgMatches.subcommandMatches, ArgMatches.subcommand, List.pairwise_cons]
          · by_cases h5 : name = "tx"
            · subst h5
              simp [anomaBranches, cmds.AnomaNode.subParse, cmds.AnomaClient.subParse,
                cmds.AnomaWallet.subParse, cmds.Ledger.parse, cmds.TxCustom.parse,
                cmds.TxTransfer.parse, cmds.TxUpdateVp.parse, cmds.TxInitProposal.parse,
                cmds.TxVoteProposal.parse, cmds.AnomaNode.CMD, cmds.AnomaClient.CMD,
                cmds.AnomaWallet.CMD, cmds.Ledger.CMD, cmds.TxCustom.CMD,
                cmds.TxTransfer.CMD, cmds.TxUpdateVp.CMD, cmds.TxInitProposal.CMD,
                cmds.TxVoteProposal.CMD, NODE_CMD, CLIENT_CMD, WALLET_CMD,
                ArgMatches.subcommandMatches, ArgMatches.subcommand, List.pairwise_cons]
            · by_cases h6 : name = "transfer"
              · subst h6
                simp [anomaBranches, cmds.AnomaNode.subParse, cmds.AnomaClient.subParse,
                  cmds.AnomaWallet.subParse, cmds.Ledger.parse, cmds.TxCustom.parse,
                  cmds.TxTransfer.parse, cmds.TxUpdateVp.parse,
                  cmds.TxInitProposal.parse, cmds.TxVoteProposal.parse,
                  cmds.AnomaNode.CMD, cmds.AnomaClient.CMD, cmds.AnomaWallet.CMD,
                  cmds.Ledger.CMD, cmds.TxCustom.CMD, cmds.TxTransfer.CMD,
                  cmds.TxUpdateVp.CMD, cmds.TxInitProposal.CMD, cmds.TxVoteProposal.CMD,
                  NODE_CMD, CLIENT_CMD, WALLET_CMD, ArgMatches.subcommandMatches,
                  ArgMatches.subcommand, List.pairwise_cons]
              · by_cases h7 : name = "update"
                · subst h7
                  simp [anomaBranches, cmds.AnomaNode.subParse,
                    cmds.AnomaClient.subParse, cmds.AnomaWallet.subParse,
                    cmds.Ledger.parse, cmds.TxCustom.parse, cmds.TxTransfer.parse,
                    cmds.TxUpdateVp.parse, cmds.TxInitProposal.parse,
                    cmds.TxVoteProposal.parse, cmds.AnomaNode.CMD, cmds.AnomaClient.CMD,
                    cmds.AnomaWallet.CMD, cmds.Ledger.CMD, cmds.TxCustom.CMD,
                    cmds.TxTransfer.CMD, cmds.TxUpdateVp.CMD, cmds.TxInitProposal.CMD,
                    cmds.TxVoteProposal.CMD, NODE_CMD, CLIENT_CMD, WALLET_CMD,
                    ArgMatches.subcommandMatches, ArgMatches.subcommand,
                    List.pairwise_cons]
                · by_cases h8 : name = "init-proposal"
                  · subst h8
                    simp [anomaBranches, cmds.AnomaNode.subParse,
                      cmds.AnomaClient.subParse, cmds.AnomaWallet.subParse,
                      cmds.Ledger.parse, cmds.TxCustom.parse, cmds.TxTransfer.parse,
                      cmds.TxUpdateVp.parse, cmds.TxInitProposal.parse,
                      cmds.TxVoteProposal.parse, cmds.AnomaNode.CMD,
                      cmds.AnomaClient.CMD, cmds.AnomaWallet.CMD, cmds.Ledger.CMD,
                      cmds.TxCustom.CMD, cmds.TxTransfer.CMD, cmds.TxUpdateVp.CMD,
                      cmds.TxInitProposal.CMD, cmds.TxVoteProposal.CMD, NODE_CMD,
                      CLIENT_CMD, WALLET_CMD, ArgMatches.subcommandMatches,
                      ArgMatches.subcommand, List.pairwise_cons]
                  · simp [anomaBranches, cmds.AnomaNode.subParse,
                      cmds.AnomaClient.subParse, cmds.AnomaWallet.subParse,
                      cmds.Ledger.parse, cmds.TxCustom.parse, cmds.TxTransfer.parse,
                      cmds.TxUpdateVp.parse, cmds.TxInitProposal.parse,
                      cmds.TxVoteProposal.parse, cmds.AnomaNode.CMD,
                      cmds.AnomaClient.CMD, cmds.AnomaWallet.CMD, cmds.Ledger.CMD,
                      cmds.TxCustom.CMD, cmds.TxTransfer.CMD, cmds.TxUpdateVp.CMD,
                      cmds.TxInitProposal.CMD, cmds.TxVoteProposal.CMD, NODE_CMD,
                      CLIENT_CMD, WALLET_CMD, ArgMatches.subcommandMatches,
                      ArgMatches.subcommand, List.pairwise_cons, h1, h2, h3, h4, h5,
                      h6, h7, h8]

/-- C8: the result of cmds::Anoma::parse is independent of the enumeration
order of its sibling sub-parsers: the parse equals the first success of the
sibling attempt list, at most one sibling attempt can succeed on any
matched input, and any permutation of the attempt list yields the same
result. -/
theorem claim8_sibling_order_invariance :
    ∀ m : ArgMatches,
      cmds.Anoma.parse m = firstSome (anomaBranches m)
      ∧ (anomaBranches m).Pairwise (fun a b => a = none ∨ b = none)
      ∧ (∀ l, (anomaBranches m).Perm l → firstSome l = cmds.Anoma.parse m) := by
  intro m
  refine ⟨anoma_parse_eq_firstSome m, anomaBranches_pairwise m, ?_⟩
  intro l hl
  rw [anoma_parse_eq_firstSome m]
  exact (firstSome_perm hl (anomaBranches_pairwise m)).symm

/-- Witness for C8: on a ledger invocation, running the sibling attempts in
reversed order yields the same parse result. -/
theorem claim8_sibling_order_invariance_witness :
    firstSome ((anomaBranches (mkNested ["ledger"] emptyMatches)).reverse)
      = cmds.Anoma.parse (mkNested ["ledger"] emptyMatches) :=
  (claim8_sibling_order_invariance (mkNested ["ledger"] emptyMatches)).2.2
    ((anomaBranches (mkNested ["ledger"] emptyMatches)).reverse)
    (List.reverse_perm (anomaBranches (mkNested ["ledger"] emptyMatches))).symm

/-- C9: the QueryCommissionRate command variant is unreachable through the
client surface: AnomaClient::parse never returns it on any matched input,
and its commission-rate token is not among the subcommands the client app
composition attaches. -/
theorem claim9_commission_rate_unreachable :
    (∀ (m : ArgMatches) (r : Except ParseErr cmds.AnomaClient),
      cmds.AnomaClient.parse m = some r →
        ∀ q, r ≠ .ok (.WithContext (.QueryCommissionRate q)))
    ∧ "commission-rate" ∉ anoma_client_cli_app.subs.map App.name := by
  constructor
  · intro m r h q
    simp only [cmds.AnomaClient.parse, cmds.AnomaClient.parseWithCtx] at h
    rcases or_eq_some_elim h with h | h
    rcases or_eq_some_elim h with h | h
    rcases or_eq_some_elim h with h | h
    rcases or_eq_some_elim h with h | h
    rcases or_eq_some_elim h with h | h
    rcases or_eq_some_elim h with h | h
    rcases or_eq_some_elim h with h | h
    rcases or_eq_some_elim h with h | h
    rcases or_eq_some_elim h with h | h
    rcases or_eq_some_elim h with h | h
    rcases or_eq_some_elim h with h | h
    rcases or_eq_some_elim h with h | h
    rcases or_eq_some_elim h with h | h
    rcases or_eq_some_elim h with h | h
    rcases or_eq_some_elim h with h | h
    rcases or_eq_some_elim h with h | h
    rcases or_eq_some_elim h with h | h
    rcases or_eq_some_elim h with h | h
    rcases or_eq_some_elim h with h | h
    rcases or_eq_some_elim h with h | h
    rcases or_eq_some_elim h with h | h
    all_goals
      obtain ⟨x, -, rfl⟩ := Option.map_eq_some'.mp h
    all_goals
      cases x <;> simp [Except.map]
  · decide

/-- Witness for C9: the parse result at the epoch query input differs from
every commission-rate result. -/
theorem claim9_commission_rate_unreachable_witness :
    epochResult ≠ .ok (.WithContext (.QueryCommissionRate
      ⟨⟨⟨"127.0.0.1:26657"⟩⟩, none, none⟩)) :=
  claim9_commission_rate_unreachable.1 epochMatches epochResult (by decide)
    ⟨⟨⟨"127.0.0.1:26657"⟩⟩, none, none⟩

/-- C4: for every command node of the combined binary's tree that yields a
command variant (the leaf nodes, plus the ledger nodes with their
designated default child), running the parse on an input consisting of
exactly that node's token path with the leaf's matched arguments yields the
variant corresponding to that node, with its payload equal to the value the
node's argument parse extracts from those arguments. -/
theorem claim4_round_trip :
    (∀ c ∈ anomaLeafCases, ∀ m : ArgMatches,
      cmds.Anoma.parse (mkNested c.1 m) = some (c.2 m))
    ∧ (∀ m : ArgMatches, m.subcommand = none →
        cmds.Anoma.parse (mkNested ["ledger"] m) = some (.ok (.Ledger (.Run .mk)))
        ∧ cmds.Anoma.parse (mkNested ["node", "ledger"] m)
            = some (.ok (.Node (.Ledger (.Run .mk))))) := by
  constructor
  · intro c hc m
    fin_cases hc <;> rfl
  · intro m hm
    obtain ⟨vals, flags, sub⟩ := m
    simp only [ArgMatches.subcommand] at hm
    subst hm
    exact ⟨rfl, rfl⟩

/-- Witness for C4: the ledger run leaf and the defaulting bare ledger node
at the empty argument tree. -/
theorem claim4_round_trip_witness :
    cmds.Anoma.parse (mkNested ["ledger", "run"] emptyMatches)
      = some (.ok (.Ledger (.Run .mk)))
    ∧ cmds.Anoma.parse (mkNested ["ledger"] emptyMatches)
      = some (.ok (.Ledger (.Run .mk))) :=
  ⟨claim4_round_trip.1 (["ledger", "run"], fun _m => .ok (.Ledger (.Run .mk)))
      (List.mem_cons_self _ _) emptyMatches,
   (claim4_round_trip.2 emptyMatches rfl).1⟩

end NamadaCli
